import Mathlib

/-!
Verification of the evaluation core of `src/Exercise 5/Exercise 5_1_d.py`
(class `BPMNEvaluator`): fuzzy label matching via
`difflib.SequenceMatcher(None, a.lower(), b.lower()).ratio()` and the greedy
precision/recall computation `calculate_metrics`.

Modelling notes.
* Strings are compared as the character lists that `SequenceMatcher` sees.
  `str.lower()` is modelled exactly: the Unicode full lowercase mapping
  (`lowerTable`, with U+0130 expanding to two code points), together with
  CPython's Final_Sigma context rule for U+03A3 driven by the Case_Ignorable
  and Cased character tables (`ciRanges`, `casedRanges`); the tables are
  taken from the Unicode character database used by CPython.
* `SequenceMatcher` is embedded with `isjunk=None`, so the junk set is empty and
  the two junk-extension loops of `find_longest_match` never fire.  The
  autojunk heuristic of `__chain_b` (on by default) is included: for a second
  sequence of length at least 200, characters occurring more than
  `len(b) // 100 + 1` times are purged from `b2j` (`popular`), so the dynamic
  program never matches on them, while the extension loops may still cross
  them (popular characters are not junk).  `b2j` is built once from the full
  second sequence; the window arguments `(alo, ahi, blo, bhi)` of the CPython
  implementation are modelled by recursing on list slices with that same
  purge predicate, which is equivalent because the purge depends only on
  character values.
* `get_matching_blocks` processes a queue of disjoint subproblems; the sum of
  the block sizes (all that `ratio` consumes, since the final coalescing step
  merges adjacent blocks by adding their sizes and the terminal block has size
  0) is computed here by the structurally equivalent recursion `matchingSizeGo`.
  The fuel `a.length + b.length` strictly dominates the measure of every
  subproblem (proved by `find_longest_match_bounds`), so the fuelled recursion
  computes the same value as the unbounded one.
* Python float arithmetic on the ratio, the thresholds and the metric scores is
  idealised as exact rational arithmetic (`ℚ`); `round(x, 2)` is round half to
  even at two decimal places (`round2`).
-/

namespace BPMN

set_option maxHeartbeats 2000000 in
/-- Single-character lowercase mappings of CPython's `str.lower()` (the
Unicode full case mapping), as pairs of code points, listing every character
whose lowercase differs from itself.  The two exceptions handled separately
are U+0130 (which lowers to two code points, see `lowerChar`) and U+03A3
GREEK CAPITAL LETTER SIGMA (context-dependent, see `lowerAux`). -/
def lowerTable : List (Nat × Nat) := [
  (0x41, 0x61), (0x42, 0x62), (0x43, 0x63), (0x44, 0x64), (0x45, 0x65),
  (0x46, 0x66), (0x47, 0x67), (0x48, 0x68), (0x49, 0x69), (0x4A, 0x6A),
  (0x4B, 0x6B), (0x4C, 0x6C), (0x4D, 0x6D), (0x4E, 0x6E), (0x4F, 0x6F),
  (0x50, 0x70), (0x51, 0x71), (0x52, 0x72), (0x53, 0x73), (0x54, 0x74),
  (0x55, 0x75), (0x56, 0x76), (0x57, 0x77), (0x58, 0x78), (0x59, 0x79),
  (0x5A, 0x7A), (0xC0, 0xE0), (0xC1, 0xE1), (0xC2, 0xE2), (0xC3, 0xE3),
  (0xC4, 0xE4), (0xC5, 0xE5), (0xC6, 0xE6), (0xC7, 0xE7), (0xC8, 0xE8),
  (0xC9, 0xE9), (0xCA, 0xEA), (0xCB, 0xEB), (0xCC, 0xEC), (0xCD, 0xED),
  (0xCE, 0xEE), (0xCF, 0xEF), (0xD0, 0xF0), (0xD1, 0xF1), (0xD2, 0xF2),
  (0xD3, 0xF3), (0xD4, 0xF4), (0xD5, 0xF5), (0xD6, 0xF6), (0xD8, 0xF8),
  (0xD9, 0xF9), (0xDA, 0xFA), (0xDB, 0xFB), (0xDC, 0xFC), (0xDD, 0xFD),
  (0xDE, 0xFE), (0x100, 0x101), (0x102, 0x103), (0x104, 0x105), (0x106, 0x107),
  (0x108, 0x109), (0x10A, 0x10B), (0x10C, 0x10D), (0x10E, 0x10F), (0x110, 0x111),
  (0x112, 0x113), (0x114, 0x115), (0x116, 0x117), (0x118, 0x119), (0x11A, 0x11B),
  (0x11C, 0x11D), (0x11E, 0x11F), (0x120, 0x121), (0x122, 0x123), (0x124, 0x125),
  (0x126, 0x127), (0x128, 0x129), (0x12A, 0x12B), (0x12C, 0x12D), (0x12E, 0x12F),
  (0x132, 0x133), (0x134, 0x135), (0x136, 0x137), (0x139, 0x13A), (0x13B, 0x13C),
  (0x13D, 0x13E), (0x13F, 0x140), (0x141, 0x142), (0x143, 0x144), (0x145, 0x146),
  (0x147, 0x148), (0x14A, 0x14B), (0x14C, 0x14D), (0x14E, 0x14F), (0x150, 0x151),
  (0x152, 0x153), (0x154, 0x155), (0x156, 0x157), (0x158, 0x159), (0x15A, 0x15B),
  (0x15C, 0x15D), (0x15E, 0x15F), (0x160, 0x161), (0x162, 0x163), (0x164, 0x165),
  (0x166, 0x167), (0x168, 0x169), (0x16A, 0x16B), (0x16C, 0x16D), (0x16E, 0x16F),
  (0x170, 0x171), (0x172, 0x173), (0x174, 0x175), (0x176, 0x177), (0x178, 0xFF),
  (0x179, 0x17A), (0x17B, 0x17C), (0x17D, 0x17E), (0x181, 0x253), (0x182, 0x183),
  (0x184, 0x185), (0x186, 0x254), (0x187, 0x188), (0x189, 0x256), (0x18A, 0x257),
  (0x18B, 0x18C), (0x18E, 0x1DD), (0x18F, 0x259), (0x190, 0x25B), (0x191, 0x192),
  (0x193, 0x260), (0x194, 0x263), (0x196, 0x269), (0x197, 0x268), (0x198, 0x199),
  (0x19C, 0x26F), (0x19D, 0x272), (0x19F, 0x275), (0x1A0, 0x1A1), (0x1A2, 0x1A3),
  (0x1A4, 0x1A5), (0x1A6, 0x280), (0x1A7, 0x1A8), (0x1A9, 0x283), (0x1AC, 0x1AD),
  (0x1AE, 0x288), (0x1AF, 0x1B0), (0x1B1, 0x28A), (0x1B2, 0x28B), (0x1B3, 0x1B4),
  (0x1B5, 0x1B6), (0x1B7, 0x292), (0x1B8, 0x1B9), (0x1BC, 0x1BD), (0x1C4, 0x1C6),
  (0x1C5, 0x1C6), (0x1C7, 0x1C9), (0x1C8, 0x1C9), (0x1CA, 0x1CC), (0x1CB, 0x1CC),
  (0x1CD, 0x1CE), (0x1CF, 0x1D0), (0x1D1, 0x1D2), (0x1D3, 0x1D4), (0x1D5, 0x1D6),
  (0x1D7, 0x1D8), (0x1D9, 0x1DA), (0x1DB, 0x1DC), (0x1DE, 0x1DF), (0x1E0, 0x1E1),
  (0x1E2, 0x1E3), (0x1E4, 0x1E5), (0x1E6, 0x1E7), (0x1E8, 0x1E9), (0x1EA, 0x1EB),
  (0x1EC, 0x1ED), (0x1EE, 0x1EF), (0x1F1, 0x1F3), (0x1F2, 0x1F3), (0x1F4, 0x1F5),
  (0x1F6, 0x195), (0x1F7, 0x1BF), (0x1F8, 0x1F9), (0x1FA, 0x1FB), (0x1FC, 0x1FD),
  (0x1FE, 0x1FF), (0x200, 0x201), (0x202, 0x203), (0x204, 0x205), (0x206, 0x207),
  (0x208, 0x209), (0x20A, 0x20B), (0x20C, 0x20D), (0x20E, 0x20F), (0x210, 0x211),
  (0x212, 0x213), (0x214, 0x215), (0x216, 0x217), (0x218, 0x219), (0x21A, 0x21B),
  (0x21C, 0x21D), (0x21E, 0x21F), (0x220, 0x19E), (0x222, 0x223), (0x224, 0x225),
  (0x226, 0x227), (0x228, 0x229), (0x22A, 0x22B), (0x22C, 0x22D), (0x22E, 0x22F),
  (0x230, 0x231), (0x232, 0x233), (0x23A, 0x2C65), (0x23B, 0x23C), (0x23D, 0x19A),
  (0x23E, 0x2C66), (0x241, 0x242), (0x243, 0x180), (0x244, 0x289), (0x245, 0x28C),
  (0x246, 0x247), (0x248, 0x249), (0x24A, 0x24B), (0x24C, 0x24D), (0x24E, 0x24F),
  (0x370, 0x371), (0x372, 0x373), (0x376, 0x377), (0x37F, 0x3F3), (0x386, 0x3AC),
  (0x388, 0x3AD), (0x389, 0x3AE), (0x38A, 0x3AF), (0x38C, 0x3CC), (0x38E, 0x3CD),
  (0x38F, 0x3CE), (0x391, 0x3B1), (0x392, 0x3B2), (0x393, 0x3B3), (0x394, 0x3B4),
  (0x395, 0x3B5), (0x396, 0x3B6), (0x397, 0x3B7), (0x398, 0x3B8), (0x399, 0x3B9),
  (0x39A, 0x3BA), (0x39B, 0x3BB), (0x39C, 0x3BC), (0x39D, 0x3BD), (0x39E, 0x3BE),
  (0x39F, 0x3BF), (0x3A0, 0x3C0), (0x3A1, 0x3C1), (0x3A4, 0x3C4), (0x3A5, 0x3C5),
  (0x3A6, 0x3C6), (0x3A7, 0x3C7), (0x3A8, 0x3C8), (0x3A9, 0x3C9), (0x3AA, 0x3CA),
  (0x3AB, 0x3CB), (0x3CF, 0x3D7), (0x3D8, 0x3D9), (0x3DA, 0x3DB), (0x3DC, 0x3DD),
  (0x3DE, 0x3DF), (0x3E0, 0x3E1), (0x3E2, 0x3E3), (0x3E4, 0x3E5), (0x3E6, 0x3E7),
  (0x3E8, 0x3E9), (0x3EA, 0x3EB), (0x3EC, 0x3ED), (0x3EE, 0x3EF), (0x3F4, 0x3B8),
  (0x3F7, 0x3F8), (0x3F9, 0x3F2), (0x3FA, 0x3FB), (0x3FD, 0x37B), (0x3FE, 0x37C),
  (0x3FF, 0x37D), (0x400, 0x450), (0x401, 0x451), (0x402, 0x452), (0x403, 0x453),
  (0x404, 0x454), (0x405, 0x455), (0x406, 0x456), (0x407, 0x457), (0x408, 0x458),
  (0x409, 0x459), (0x40A, 0x45A), (0x40B, 0x45B), (0x40C, 0x45C), (0x40D, 0x45D),
  (0x40E, 0x45E), (0x40F, 0x45F), (0x410, 0x430), (0x411, 0x431), (0x412, 0x432),
  (0x413, 0x433), (0x414, 0x434), (0x415, 0x435), (0x416, 0x436), (0x417, 0x437),
  (0x418, 0x438), (0x419, 0x439), (0x41A, 0x43A), (0x41B, 0x43B), (0x41C, 0x43C),
  (0x41D, 0x43D), (0x41E, 0x43E), (0x41F, 0x43F), (0x420, 0x440), (0x421, 0x441),
  (0x422, 0x442), (0x423, 0x443), (0x424, 0x444), (0x425, 0x445), (0x426, 0x446),
  (0x427, 0x447), (0x428, 0x448), (0x429, 0x449), (0x42A, 0x44A), (0x42B, 0x44B),
  (0x42C, 0x44C), (0x42D, 0x44D), (0x42E, 0x44E), (0x42F, 0x44F), (0x460, 0x461),
  (0x462, 0x463), (0x464, 0x465), (0x466, 0x467), (0x468, 0x469), (0x46A, 0x46B),
  (0x46C, 0x46D), (0x46E, 0x46F), (0x470, 0x471), (0x472, 0x473), (0x474, 0x475),
  (0x476, 0x477), (0x478, 0x479), (0x47A, 0x47B), (0x47C, 0x47D), (0x47E, 0x47F),
  (0x480, 0x481), (0x48A, 0x48B), (0x48C, 0x48D), (0x48E, 0x48F), (0x490, 0x491),
  (0x492, 0x493), (0x494, 0x495), (0x496, 0x497), (0x498, 0x499), (0x49A, 0x49B),
  (0x49C, 0x49D), (0x49E, 0x49F), (0x4A0, 0x4A1), (0x4A2, 0x4A3), (0x4A4, 0x4A5),
  (0x4A6, 0x4A7), (0x4A8, 0x4A9), (0x4AA, 0x4AB), (0x4AC, 0x4AD), (0x4AE, 0x4AF),
  (0x4B0, 0x4B1), (0x4B2, 0x4B3), (0x4B4, 0x4B5), (0x4B6, 0x4B7), (0x4B8, 0x4B9),
  (0x4BA, 0x4BB), (0x4BC, 0x4BD), (0x4BE, 0x4BF), (0x4C0, 0x4CF), (0x4C1, 0x4C2),
  (0x4C3, 0x4C4), (0x4C5, 0x4C6), (0x4C7, 0x4C8), (0x4C9, 0x4CA), (0x4CB, 0x4CC),
  (0x4CD, 0x4CE), (0x4D0, 0x4D1), (0x4D2, 0x4D3), (0x4D4, 0x4D5), (0x4D6, 0x4D7),
  (0x4D8, 0x4D9), (0x4DA, 0x4DB), (0x4DC, 0x4DD), (0x4DE, 0x4DF), (0x4E0, 0x4E1),
  (0x4E2, 0x4E3), (0x4E4, 0x4E5), (0x4E6, 0x4E7), (0x4E8, 0x4E9), (0x4EA, 0x4EB),
  (0x4EC, 0x4ED), (0x4EE, 0x4EF), (0x4F0, 0x4F1), (0x4F2, 0x4F3), (0x4F4, 0x4F5),
  (0x4F6, 0x4F7), (0x4F8, 0x4F9), (0x4FA, 0x4FB), (0x4FC, 0x4FD), (0x4FE, 0x4FF),
  (0x500, 0x501), (0x502, 0x503), (0x504, 0x505), (0x506, 0x507), (0x508, 0x509),
  (0x50A, 0x50B), (0x50C, 0x50D), (0x50E, 0x50F), (0x510, 0x511), (0x512, 0x513),
  (0x514, 0x515), (0x516, 0x517), (0x518, 0x519), (0x51A, 0x51B), (0x51C, 0x51D),
  (0x51E, 0x51F), (0x520, 0x521), (0x522, 0x523), (0x524, 0x525), (0x526, 0x527),
  (0x528, 0x529), (0x52A, 0x52B), (0x52C, 0x52D), (0x52E, 0x52F), (0x531, 0x561),
  (0x532, 0x562), (0x533, 0x563), (0x534, 0x564), (0x535, 0x565), (0x536, 0x566),
  (0x537, 0x567), (0x538, 0x568), (0x539, 0x569), (0x53A, 0x56A), (0x53B, 0x56B),
  (0x53C, 0x56C), (0x53D, 0x56D), (0x53E, 0x56E), (0x53F, 0x56F), (0x540, 0x570),
  (0x541, 0x571), (0x542, 0x572), (0x543, 0x573), (0x544, 0x574), (0x545, 0x575),
  (0x546, 0x576), (0x547, 0x577), (0x548, 0x578), (0x549, 0x579), (0x54A, 0x57A),
  (0x54B, 0x57B), (0x54C, 0x57C), (0x54D, 0x57D), (0x54E, 0x57E), (0x54F, 0x57F),
  (0x550, 0x580), (0x551, 0x581), (0x552, 0x582), (0x553, 0x583), (0x554, 0x584),
  (0x555, 0x585), (0x556, 0x586), (0x10A0, 0x2D00), (0x10A1, 0x2D01), (0x10A2, 0x2D02),
  (0x10A3, 0x2D03), (0x10A4, 0x2D04), (0x10A5, 0x2D05), (0x10A6, 0x2D06), (0x10A7, 0x2D07),
  (0x10A8, 0x2D08), (0x10A9, 0x2D09), (0x10AA, 0x2D0A), (0x10AB, 0x2D0B), (0x10AC, 0x2D0C),
  (0x10AD, 0x2D0D), (0x10AE, 0x2D0E), (0x10AF, 0x2D0F), (0x10B0, 0x2D10), (0x10B1, 0x2D11),
  (0x10B2, 0x2D12), (0x10B3, 0x2D13), (0x10B4, 0x2D14), (0x10B5, 0x2D15), (0x10B6, 0x2D16),
  (0x10B7, 0x2D17), (0x10B8, 0x2D18), (0x10B9, 0x2D19), (0x10BA, 0x2D1A), (0x10BB, 0x2D1B),
  (0x10BC, 0x2D1C), (0x10BD, 0x2D1D), (0x10BE, 0x2D1E), (0x10BF, 0x2D1F), (0x10C0, 0x2D20),
  (0x10C1, 0x2D21), (0x10C2, 0x2D22), (0x10C3, 0x2D23), (0x10C4, 0x2D24), (0x10C5, 0x2D25),
  (0x10C7, 0x2D27), (0x10CD, 0x2D2D), (0x13A0, 0xAB70), (0x13A1, 0xAB71), (0x13A2, 0xAB72),
  (0x13A3, 0xAB73), (0x13A4, 0xAB74), (0x13A5, 0xAB75), (0x13A6, 0xAB76), (0x13A7, 0xAB77),
  (0x13A8, 0xAB78), (0x13A9, 0xAB79), (0x13AA, 0xAB7A), (0x13AB, 0xAB7B), (0x13AC, 0xAB7C),
  (0x13AD, 0xAB7D), (0x13AE, 0xAB7E), (0x13AF, 0xAB7F), (0x13B0, 0xAB80), (0x13B1, 0xAB81),
  (0x13B2, 0xAB82), (0x13B3, 0xAB83), (0x13B4, 0xAB84), (0x13B5, 0xAB85), (0x13B6, 0xAB86),
  (0x13B7, 0xAB87), (0x13B8, 0xAB88), (0x13B9, 0xAB89), (0x13BA, 0xAB8A), (0x13BB, 0xAB8B),
  (0x13BC, 0xAB8C), (0x13BD, 0xAB8D), (0x13BE, 0xAB8E), (0x13BF, 0xAB8F), (0x13C0, 0xAB90),
  (0x13C1, 0xAB91), (0x13C2, 0xAB92), (0x13C3, 0xAB93), (0x13C4, 0xAB94), (0x13C5, 0xAB95),
  (0x13C6, 0xAB96), (0x13C7, 0xAB97), (0x13C8, 0xAB98), (0x13C9, 0xAB99), (0x13CA, 0xAB9A),
  (0x13CB, 0xAB9B), (0x13CC, 0xAB9C), (0x13CD, 0xAB9D), (0x13CE, 0xAB9E), (0x13CF, 0xAB9F),
  (0x13D0, 0xABA0), (0x13D1, 0xABA1), (0x13D2, 0xABA2), (0x13D3, 0xABA3), (0x13D4, 0xABA4),
  (0x13D5, 0xABA5), (0x13D6, 0xABA6), (0x13D7, 0xABA7), (0x13D8, 0xABA8), (0x13D9, 0xABA9),
  (0x13DA, 0xABAA), (0x13DB, 0xABAB), (0x13DC, 0xABAC), (0x13DD, 0xABAD), (0x13DE, 0xABAE),
  (0x13DF, 0xABAF), (0x13E0, 0xABB0), (0x13E1, 0xABB1), (0x13E2, 0xABB2), (0x13E3, 0xABB3),
  (0x13E4, 0xABB4), (0x13E5, 0xABB5), (0x13E6, 0xABB6), (0x13E7, 0xABB7), (0x13E8, 0xABB8),
  (0x13E9, 0xABB9), (0x13EA, 0xABBA), (0x13EB, 0xABBB), (0x13EC, 0xABBC), (0x13ED, 0xABBD),
  (0x13EE, 0xABBE), (0x13EF, 0xABBF), (0x13F0, 0x13F8), (0x13F1, 0x13F9), (0x13F2, 0x13FA),
  (0x13F3, 0x13FB), (0x13F4, 0x13FC), (0x13F5, 0x13FD), (0x1C90, 0x10D0), (0x1C91, 0x10D1),
  (0x1C92, 0x10D2), (0x1C93, 0x10D3), (0x1C94, 0x10D4), (0x1C95, 0x10D5), (0x1C96, 0x10D6),
  (0x1C97, 0x10D7), (0x1C98, 0x10D8), (0x1C99, 0x10D9), (0x1C9A, 0x10DA), (0x1C9B, 0x10DB),
  (0x1C9C, 0x10DC), (0x1C9D, 0x10DD), (0x1C9E, 0x10DE), (0x1C9F, 0x10DF), (0x1CA0, 0x10E0),
  (0x1CA1, 0x10E1), (0x1CA2, 0x10E2), (0x1CA3, 0x10E3), (0x1CA4, 0x10E4), (0x1CA5, 0x10E5),
  (0x1CA6, 0x10E6), (0x1CA7, 0x10E7), (0x1CA8, 0x10E8), (0x1CA9, 0x10E9), (0x1CAA, 0x10EA),
  (0x1CAB, 0x10EB), (0x1CAC, 0x10EC), (0x1CAD, 0x10ED), (0x1CAE, 0x10EE), (0x1CAF, 0x10EF),
  (0x1CB0, 0x10F0), (0x1CB1, 0x10F1), (0x1CB2, 0x10F2), (0x1CB3, 0x10F3), (0x1CB4, 0x10F4),
  (0x1CB5, 0x10F5), (0x1CB6, 0x10F6), (0x1CB7, 0x10F7), (0x1CB8, 0x10F8), (0x1CB9, 0x10F9),
  (0x1CBA, 0x10FA), (0x1CBD, 0x10FD), (0x1CBE, 0x10FE), (0x1CBF, 0x10FF), (0x1E00, 0x1E01),
  (0x1E02, 0x1E03), (0x1E04, 0x1E05), (0x1E06, 0x1E07), (0x1E08, 0x1E09), (0x1E0A, 0x1E0B),
  (0x1E0C, 0x1E0D), (0x1E0E, 0x1E0F), (0x1E10, 0x1E11), (0x1E12, 0x1E13), (0x1E14, 0x1E15),
  (0x1E16, 0x1E17), (0x1E18, 0x1E19), (0x1E1A, 0x1E1B), (0x1E1C, 0x1E1D), (0x1E1E, 0x1E1F),
  (0x1E20, 0x1E21), (0x1E22, 0x1E23), (0x1E24, 0x1E25), (0x1E26, 0x1E27), (0x1E28, 0x1E29),
  (0x1E2A, 0x1E2B), (0x1E2C, 0x1E2D), (0x1E2E, 0x1E2F), (0x1E30, 0x1E31), (0x1E32, 0x1E33),
  (0x1E34, 0x1E35), (0x1E36, 0x1E37), (0x1E38, 0x1E39), (0x1E3A, 0x1E3B), (0x1E3C, 0x1E3D),
  (0x1E3E, 0x1E3F), (0x1E40, 0x1E41), (0x1E42, 0x1E43), (0x1E44, 0x1E45), (0x1E46, 0x1E47),
  (0x1E48, 0x1E49), (0x1E4A, 0x1E4B), (0x1E4C, 0x1E4D), (0x1E4E, 0x1E4F), (0x1E50, 0x1E51),
  (0x1E52, 0x1E53), (0x1E54, 0x1E55), (0x1E56, 0x1E57), (0x1E58, 0x1E59), (0x1E5A, 0x1E5B),
  (0x1E5C, 0x1E5D), (0x1E5E, 0x1E5F), (0x1E60, 0x1E61), (0x1E62, 0x1E63), (0x1E64, 0x1E65),
  (0x1E66, 0x1E67), (0x1E68, 0x1E69), (0x1E6A, 0x1E6B), (0x1E6C, 0x1E6D), (0x1E6E, 0x1E6F),
  (0x1E70, 0x1E71), (0x1E72, 0x1E73), (0x1E74, 0x1E75), (0x1E76, 0x1E77), (0x1E78, 0x1E79),
  (0x1E7A, 0x1E7B), (0x1E7C, 0x1E7D), (0x1E7E, 0x1E7F), (0x1E80, 0x1E81), (0x1E82, 0x1E83),
  (0x1E84, 0x1E85), (0x1E86, 0x1E87), (0x1E88, 0x1E89), (0x1E8A, 0x1E8B), (0x1E8C, 0x1E8D),
  (0x1E8E, 0x1E8F), (0x1E90, 0x1E91), (0x1E92, 0x1E93), (0x1E94, 0x1E95), (0x1E9E, 0xDF),
  (0x1EA0, 0x1EA1), (0x1EA2, 0x1EA3), (0x1EA4, 0x1EA5), (0x1EA6, 0x1EA7), (0x1EA8, 0x1EA9),
  (0x1EAA, 0x1EAB), (0x1EAC, 0x1EAD), (0x1EAE, 0x1EAF), (0x1EB0, 0x1EB1), (0x1EB2, 0x1EB3),
  (0x1EB4, 0x1EB5), (0x1EB6, 0x1EB7), (0x1EB8, 0x1EB9), (0x1EBA, 0x1EBB), (0x1EBC, 0x1EBD),
  (0x1EBE, 0x1EBF), (0x1EC0, 0x1EC1), (0x1EC2, 0x1EC3), (0x1EC4, 0x1EC5), (0x1EC6, 0x1EC7),
  (0x1EC8, 0x1EC9), (0x1ECA, 0x1ECB), (0x1ECC, 0x1ECD), (0x1ECE, 0x1ECF), (0x1ED0, 0x1ED1),
  (0x1ED2, 0x1ED3), (0x1ED4, 0x1ED5), (0x1ED6, 0x1ED7), (0x1ED8, 0x1ED9), (0x1EDA, 0x1EDB),
  (0x1EDC, 0x1EDD), (0x1EDE, 0x1EDF), (0x1EE0, 0x1EE1), (0x1EE2, 0x1EE3), (0x1EE4, 0x1EE5),
  (0x1EE6, 0x1EE7), (0x1EE8, 0x1EE9), (0x1EEA, 0x1EEB), (0x1EEC, 0x1EED), (0x1EEE, 0x1EEF),
  (0x1EF0, 0x1EF1), (0x1EF2, 0x1EF3), (0x1EF4, 0x1EF5), (0x1EF6, 0x1EF7), (0x1EF8, 0x1EF9),
  (0x1EFA, 0x1EFB), (0x1EFC, 0x1EFD), (0x1EFE, 0x1EFF), (0x1F08, 0x1F00), (0x1F09, 0x1F01),
  (0x1F0A, 0x1F02), (0x1F0B, 0x1F03), (0x1F0C, 0x1F04), (0x1F0D, 0x1F05), (0x1F0E, 0x1F06),
  (0x1F0F, 0x1F07), (0x1F18, 0x1F10), (0x1F19, 0x1F11), (0x1F1A, 0x1F12), (0x1F1B, 0x1F13),
  (0x1F1C, 0x1F14), (0x1F1D, 0x1F15), (0x1F28, 0x1F20), (0x1F29, 0x1F21), (0x1F2A, 0x1F22),
  (0x1F2B, 0x1F23), (0x1F2C, 0x1F24), (0x1F2D, 0x1F25), (0x1F2E, 0x1F26), (0x1F2F, 0x1F27),
  (0x1F38, 0x1F30), (0x1F39, 0x1F31), (0x1F3A, 0x1F32), (0x1F3B, 0x1F33), (0x1F3C, 0x1F34),
  (0x1F3D, 0x1F35), (0x1F3E, 0x1F36), (0x1F3F, 0x1F37), (0x1F48, 0x1F40), (0x1F49, 0x1F41),
  (0x1F4A, 0x1F42), (0x1F4B, 0x1F43), (0x1F4C, 0x1F44), (0x1F4D, 0x1F45), (0x1F59, 0x1F51),
  (0x1F5B, 0x1F53), (0x1F5D, 0x1F55), (0x1F5F, 0x1F57), (0x1F68, 0x1F60), (0x1F69, 0x1F61),
  (0x1F6A, 0x1F62), (0x1F6B, 0x1F63), (0x1F6C, 0x1F64), (0x1F6D, 0x1F65), (0x1F6E, 0x1F66),
  (0x1F6F, 0x1F67), (0x1F88, 0x1F80), (0x1F89, 0x1F81), (0x1F8A, 0x1F82), (0x1F8B, 0x1F83),
  (0x1F8C, 0x1F84), (0x1F8D, 0x1F85), (0x1F8E, 0x1F86), (0x1F8F, 0x1F87), (0x1F98, 0x1F90),
  (0x1F99, 0x1F91), (0x1F9A, 0x1F92), (0x1F9B, 0x1F93), (0x1F9C, 0x1F94), (0x1F9D, 0x1F95),
  (0x1F9E, 0x1F96), (0x1F9F, 0x1F97), (0x1FA8, 0x1FA0), (0x1FA9, 0x1FA1), (0x1FAA, 0x1FA2),
  (0x1FAB, 0x1FA3), (0x1FAC, 0x1FA4), (0x1FAD, 0x1FA5), (0x1FAE, 0x1FA6), (0x1FAF, 0x1FA7),
  (0x1FB8, 0x1FB0), (0x1FB9, 0x1FB1), (0x1FBA, 0x1F70), (0x1FBB, 0x1F71), (0x1FBC, 0x1FB3),
  (0x1FC8, 0x1F72), (0x1FC9, 0x1F73), (0x1FCA, 0x1F74), (0x1FCB, 0x1F75), (0x1FCC, 0x1FC3),
  (0x1FD8, 0x1FD0), (0x1FD9, 0x1FD1), (0x1FDA, 0x1F76), (0x1FDB, 0x1F77), (0x1FE8, 0x1FE0),
  (0x1FE9, 0x1FE1), (0x1FEA, 0x1F7A), (0x1FEB, 0x1F7B), (0x1FEC, 0x1FE5), (0x1FF8, 0x1F78),
  (0x1FF9, 0x1F79), (0x1FFA, 0x1F7C), (0x1FFB, 0x1F7D), (0x1FFC, 0x1FF3), (0x2126, 0x3C9),
  (0x212A, 0x6B), (0x212B, 0xE5), (0x2132, 0x214E), (0x2160, 0x2170), (0x2161, 0x2171),
  (0x2162, 0x2172), (0x2163, 0x2173), (0x2164, 0x2174), (0x2165, 0x2175), (0x2166, 0x2176),
  (0x2167, 0x2177), (0x2168, 0x2178), (0x2169, 0x2179), (0x216A, 0x217A), (0x216B, 0x217B),
  (0x216C, 0x217C), (0x216D, 0x217D), (0x216E, 0x217E), (0x216F, 0x217F), (0x2183, 0x2184),
  (0x24B6, 0x24D0), (0x24B7, 0x24D1), (0x24B8, 0x24D2), (0x24B9, 0x24D3), (0x24BA, 0x24D4),
  (0x24BB, 0x24D5), (0x24BC, 0x24D6), (0x24BD, 0x24D7), (0x24BE, 0x24D8), (0x24BF, 0x24D9),
  (0x24C0, 0x24DA), (0x24C1, 0x24DB), (0x24C2, 0x24DC), (0x24C3, 0x24DD), (0x24C4, 0x24DE),
  (0x24C5, 0x24DF), (0x24C6, 0x24E0), (0x24C7, 0x24E1), (0x24C8, 0x24E2), (0x24C9, 0x24E3),
  (0x24CA, 0x24E4), (0x24CB, 0x24E5), (0x24CC, 0x24E6), (0x24CD, 0x24E7), (0x24CE, 0x24E8),
  (0x24CF, 0x24E9), (0x2C00, 0x2C30), (0x2C01, 0x2C31), (0x2C02, 0x2C32), (0x2C03, 0x2C33),
  (0x2C04, 0x2C34), (0x2C05, 0x2C35), (0x2C06, 0x2C36), (0x2C07, 0x2C37), (0x2C08, 0x2C38),
  (0x2C09, 0x2C39), (0x2C0A, 0x2C3A), (0x2C0B, 0x2C3B), (0x2C0C, 0x2C3C), (0x2C0D, 0x2C3D),
  (0x2C0E, 0x2C3E), (0x2C0F, 0x2C3F), (0x2C10, 0x2C40), (0x2C11, 0x2C41), (0x2C12, 0x2C42),
  (0x2C13, 0x2C43), (0x2C14, 0x2C44), (0x2C15, 0x2C45), (0x2C16, 0x2C46), (0x2C17, 0x2C47),
  (0x2C18, 0x2C48), (0x2C19, 0x2C49), (0x2C1A, 0x2C4A), (0x2C1B, 0x2C4B), (0x2C1C, 0x2C4C),
  (0x2C1D, 0x2C4D), (0x2C1E, 0x2C4E), (0x2C1F, 0x2C4F), (0x2C20, 0x2C50), (0x2C21, 0x2C51),
  (0x2C22, 0x2C52), (0x2C23, 0x2C53), (0x2C24, 0x2C54), (0x2C25, 0x2C55), (0x2C26, 0x2C56),
  (0x2C27, 0x2C57), (0x2C28, 0x2C58), (0x2C29, 0x2C59), (0x2C2A, 0x2C5A), (0x2C2B, 0x2C5B),
  (0x2C2C, 0x2C5C), (0x2C2D, 0x2C5D), (0x2C2E, 0x2C5E), (0x2C2F, 0x2C5F), (0x2C60, 0x2C61),
  (0x2C62, 0x26B), (0x2C63, 0x1D7D), (0x2C64, 0x27D), (0x2C67, 0x2C68), (0x2C69, 0x2C6A),
  (0x2C6B, 0x2C6C), (0x2C6D, 0x251), (0x2C6E, 0x271), (0x2C6F, 0x250), (0x2C70, 0x252),
  (0x2C72, 0x2C73), (0x2C75, 0x2C76), (0x2C7E, 0x23F), (0x2C7F, 0x240), (0x2C80, 0x2C81),
  (0x2C82, 0x2C83), (0x2C84, 0x2C85), (0x2C86, 0x2C87), (0x2C88, 0x2C89), (0x2C8A, 0x2C8B),
  (0x2C8C, 0x2C8D), (0x2C8E, 0x2C8F), (0x2C90, 0x2C91), (0x2C92, 0x2C93), (0x2C94, 0x2C95),
  (0x2C96, 0x2C97), (0x2C98, 0x2C99), (0x2C9A, 0x2C9B), (0x2C9C, 0x2C9D), (0x2C9E, 0x2C9F),
  (0x2CA0, 0x2CA1), (0x2CA2, 0x2CA3), (0x2CA4, 0x2CA5), (0x2CA6, 0x2CA7), (0x2CA8, 0x2CA9),
  (0x2CAA, 0x2CAB), (0x2CAC, 0x2CAD), (0x2CAE, 0x2CAF), (0x2CB0, 0x2CB1), (0x2CB2, 0x2CB3),
  (0x2CB4, 0x2CB5), (0x2CB6, 0x2CB7), (0x2CB8, 0x2CB9), (0x2CBA, 0x2CBB), (0x2CBC, 0x2CBD),
  (0x2CBE, 0x2CBF), (0x2CC0, 0x2CC1), (0x2CC2, 0x2CC3), (0x2CC4, 0x2CC5), (0x2CC6, 0x2CC7),
  (0x2CC8, 0x2CC9), (0x2CCA, 0x2CCB), (0x2CCC, 0x2CCD), (0x2CCE, 0x2CCF), (0x2CD0, 0x2CD1),
  (0x2CD2, 0x2CD3), (0x2CD4, 0x2CD5), (0x2CD6, 0x2CD7), (0x2CD8, 0x2CD9), (0x2CDA, 0x2CDB),
  (0x2CDC, 0x2CDD), (0x2CDE, 0x2CDF), (0x2CE0, 0x2CE1), (0x2CE2, 0x2CE3), (0x2CEB, 0x2CEC),
  (0x2CED, 0x2CEE), (0x2CF2, 0x2CF3), (0xA640, 0xA641), (0xA642, 0xA643), (0xA644, 0xA645),
  (0xA646, 0xA647), (0xA648, 0xA649), (0xA64A, 0xA64B), (0xA64C, 0xA64D), (0xA64E, 0xA64F),
  (0xA650, 0xA651), (0xA652, 0xA653), (0xA654, 0xA655), (0xA656, 0xA657), (0xA658, 0xA659),
  (0xA65A, 0xA65B), (0xA65C, 0xA65D), (0xA65E, 0xA65F), (0xA660, 0xA661), (0xA662, 0xA663),
  (0xA664, 0xA665), (0xA666, 0xA667), (0xA668, 0xA669), (0xA66A, 0xA66B), (0xA66C, 0xA66D),
  (0xA680, 0xA681), (0xA682, 0xA683), (0xA684, 0xA685), (0xA686, 0xA687), (0xA688, 0xA689),
  (0xA68A, 0xA68B), (0xA68C, 0xA68D), (0xA68E, 0xA68F), (0xA690, 0xA691), (0xA692, 0xA693),
  (0xA694, 0xA695), (0xA696, 0xA697), (0xA698, 0xA699), (0xA69A, 0xA69B), (0xA722, 0xA723),
  (0xA724, 0xA725), (0xA726, 0xA727), (0xA728, 0xA729), (0xA72A, 0xA72B), (0xA72C, 0xA72D),
  (0xA72E, 0xA72F), (0xA732, 0xA733), (0xA734, 0xA735), (0xA736, 0xA737), (0xA738, 0xA739),
  (0xA73A, 0xA73B), (0xA73C, 0xA73D), (0xA73E, 0xA73F), (0xA740, 0xA741), (0xA742, 0xA743),
  (0xA744, 0xA745), (0xA746, 0xA747), (0xA748, 0xA749), (0xA74A, 0xA74B), (0xA74C, 0xA74D),
  (0xA74E, 0xA74F), (0xA750, 0xA751), (0xA752, 0xA753), (0xA754, 0xA755), (0xA756, 0xA757),
  (0xA758, 0xA759), (0xA75A, 0xA75B), (0xA75C, 0xA75D), (0xA75E, 0xA75F), (0xA760, 0xA761),
  (0xA762, 0xA763), (0xA764, 0xA765), (0xA766, 0xA767), (0xA768, 0xA769), (0xA76A, 0xA76B),
  (0xA76C, 0xA76D), (0xA76E, 0xA76F), (0xA779, 0xA77A), (0xA77B, 0xA77C), (0xA77D, 0x1D79),
  (0xA77E, 0xA77F), (0xA780, 0xA781), (0xA782, 0xA783), (0xA784, 0xA785), (0xA786, 0xA787),
  (0xA78B, 0xA78C), (0xA78D, 0x265), (0xA790, 0xA791), (0xA792, 0xA793), (0xA796, 0xA797),
  (0xA798, 0xA799), (0xA79A, 0xA79B), (0xA79C, 0xA79D), (0xA79E, 0xA79F), (0xA7A0, 0xA7A1),
  (0xA7A2, 0xA7A3), (0xA7A4, 0xA7A5), (0xA7A6, 0xA7A7), (0xA7A8, 0xA7A9), (0xA7AA, 0x266),
  (0xA7AB, 0x25C), (0xA7AC, 0x261), (0xA7AD, 0x26C), (0xA7AE, 0x26A), (0xA7B0, 0x29E),
  (0xA7B1, 0x287), (0xA7B2, 0x29D), (0xA7B3, 0xAB53), (0xA7B4, 0xA7B5), (0xA7B6, 0xA7B7),
  (0xA7B8, 0xA7B9), (0xA7BA, 0xA7BB), (0xA7BC, 0xA7BD), (0xA7BE, 0xA7BF), (0xA7C0, 0xA7C1),
  (0xA7C2, 0xA7C3), (0xA7C4, 0xA794), (0xA7C5, 0x282), (0xA7C6, 0x1D8E), (0xA7C7, 0xA7C8),
  (0xA7C9, 0xA7CA), (0xA7D0, 0xA7D1), (0xA7D6, 0xA7D7), (0xA7D8, 0xA7D9), (0xA7F5, 0xA7F6),
  (0xFF21, 0xFF41), (0xFF22, 0xFF42), (0xFF23, 0xFF43), (0xFF24, 0xFF44), (0xFF25, 0xFF45),
  (0xFF26, 0xFF46), (0xFF27, 0xFF47), (0xFF28, 0xFF48), (0xFF29, 0xFF49), (0xFF2A, 0xFF4A),
  (0xFF2B, 0xFF4B), (0xFF2C, 0xFF4C), (0xFF2D, 0xFF4D), (0xFF2E, 0xFF4E), (0xFF2F, 0xFF4F),
  (0xFF30, 0xFF50), (0xFF31, 0xFF51), (0xFF32, 0xFF52), (0xFF33, 0xFF53), (0xFF34, 0xFF54),
  (0xFF35, 0xFF55), (0xFF36, 0xFF56), (0xFF37, 0xFF57), (0xFF38, 0xFF58), (0xFF39, 0xFF59),
  (0xFF3A, 0xFF5A), (0x10400, 0x10428), (0x10401, 0x10429), (0x10402, 0x1042A), (0x10403, 0x1042B),
  (0x10404, 0x1042C), (0x10405, 0x1042D), (0x10406, 0x1042E), (0x10407, 0x1042F), (0x10408, 0x10430),
  (0x10409, 0x10431), (0x1040A, 0x10432), (0x1040B, 0x10433), (0x1040C, 0x10434), (0x1040D, 0x10435),
  (0x1040E, 0x10436), (0x1040F, 0x10437), (0x10410, 0x10438), (0x10411, 0x10439), (0x10412, 0x1043A),
  (0x10413, 0x1043B), (0x10414, 0x1043C), (0x10415, 0x1043D), (0x10416, 0x1043E), (0x10417, 0x1043F),
  (0x10418, 0x10440), (0x10419, 0x10441), (0x1041A, 0x10442), (0x1041B, 0x10443), (0x1041C, 0x10444),
  (0x1041D, 0x10445), (0x1041E, 0x10446), (0x1041F, 0x10447), (0x10420, 0x10448), (0x10421, 0x10449),
  (0x10422, 0x1044A), (0x10423, 0x1044B), (0x10424, 0x1044C), (0x10425, 0x1044D), (0x10426, 0x1044E),
  (0x10427, 0x1044F), (0x104B0, 0x104D8), (0x104B1, 0x104D9), (0x104B2, 0x104DA), (0x104B3, 0x104DB),
  (0x104B4, 0x104DC), (0x104B5, 0x104DD), (0x104B6, 0x104DE), (0x104B7, 0x104DF), (0x104B8, 0x104E0),
  (0x104B9, 0x104E1), (0x104BA, 0x104E2), (0x104BB, 0x104E3), (0x104BC, 0x104E4), (0x104BD, 0x104E5),
  (0x104BE, 0x104E6), (0x104BF, 0x104E7), (0x104C0, 0x104E8), (0x104C1, 0x104E9), (0x104C2, 0x104EA),
  (0x104C3, 0x104EB), (0x104C4, 0x104EC), (0x104C5, 0x104ED), (0x104C6, 0x104EE), (0x104C7, 0x104EF),
  (0x104C8, 0x104F0), (0x104C9, 0x104F1), (0x104CA, 0x104F2), (0x104CB, 0x104F3), (0x104CC, 0x104F4),
  (0x104CD, 0x104F5), (0x104CE, 0x104F6), (0x104CF, 0x104F7), (0x104D0, 0x104F8), (0x104D1, 0x104F9),
  (0x104D2, 0x104FA), (0x104D3, 0x104FB), (0x10570, 0x10597), (0x10571, 0x10598), (0x10572, 0x10599),
  (0x10573, 0x1059A), (0x10574, 0x1059B), (0x10575, 0x1059C), (0x10576, 0x1059D), (0x10577, 0x1059E),
  (0x10578, 0x1059F), (0x10579, 0x105A0), (0x1057A, 0x105A1), (0x1057C, 0x105A3), (0x1057D, 0x105A4),
  (0x1057E, 0x105A5), (0x1057F, 0x105A6), (0x10580, 0x105A7), (0x10581, 0x105A8), (0x10582, 0x105A9),
  (0x10583, 0x105AA), (0x10584, 0x105AB), (0x10585, 0x105AC), (0x10586, 0x105AD), (0x10587, 0x105AE),
  (0x10588, 0x105AF), (0x10589, 0x105B0), (0x1058A, 0x105B1), (0x1058C, 0x105B3), (0x1058D, 0x105B4),
  (0x1058E, 0x105B5), (0x1058F, 0x105B6), (0x10590, 0x105B7), (0x10591, 0x105B8), (0x10592, 0x105B9),
  (0x10594, 0x105BB), (0x10595, 0x105BC), (0x10C80, 0x10CC0), (0x10C81, 0x10CC1), (0x10C82, 0x10CC2),
  (0x10C83, 0x10CC3), (0x10C84, 0x10CC4), (0x10C85, 0x10CC5), (0x10C86, 0x10CC6), (0x10C87, 0x10CC7),
  (0x10C88, 0x10CC8), (0x10C89, 0x10CC9), (0x10C8A, 0x10CCA), (0x10C8B, 0x10CCB), (0x10C8C, 0x10CCC),
  (0x10C8D, 0x10CCD), (0x10C8E, 0x10CCE), (0x10C8F, 0x10CCF), (0x10C90, 0x10CD0), (0x10C91, 0x10CD1),
  (0x10C92, 0x10CD2), (0x10C93, 0x10CD3), (0x10C94, 0x10CD4), (0x10C95, 0x10CD5), (0x10C96, 0x10CD6),
  (0x10C97, 0x10CD7), (0x10C98, 0x10CD8), (0x10C99, 0x10CD9), (0x10C9A, 0x10CDA), (0x10C9B, 0x10CDB),
  (0x10C9C, 0x10CDC), (0x10C9D, 0x10CDD), (0x10C9E, 0x10CDE), (0x10C9F, 0x10CDF), (0x10CA0, 0x10CE0),
  (0x10CA1, 0x10CE1), (0x10CA2, 0x10CE2), (0x10CA3, 0x10CE3), (0x10CA4, 0x10CE4), (0x10CA5, 0x10CE5),
  (0x10CA6, 0x10CE6), (0x10CA7, 0x10CE7), (0x10CA8, 0x10CE8), (0x10CA9, 0x10CE9), (0x10CAA, 0x10CEA),
  (0x10CAB, 0x10CEB), (0x10CAC, 0x10CEC), (0x10CAD, 0x10CED), (0x10CAE, 0x10CEE), (0x10CAF, 0x10CEF),
  (0x10CB0, 0x10CF0), (0x10CB1, 0x10CF1), (0x10CB2, 0x10CF2), (0x118A0, 0x118C0), (0x118A1, 0x118C1),
  (0x118A2, 0x118C2), (0x118A3, 0x118C3), (0x118A4, 0x118C4), (0x118A5, 0x118C5), (0x118A6, 0x118C6),
  (0x118A7, 0x118C7), (0x118A8, 0x118C8), (0x118A9, 0x118C9), (0x118AA, 0x118CA), (0x118AB, 0x118CB),
  (0x118AC, 0x118CC), (0x118AD, 0x118CD), (0x118AE, 0x118CE), (0x118AF, 0x118CF), (0x118B0, 0x118D0),
  (0x118B1, 0x118D1), (0x118B2, 0x118D2), (0x118B3, 0x118D3), (0x118B4, 0x118D4), (0x118B5, 0x118D5),
  (0x118B6, 0x118D6), (0x118B7, 0x118D7), (0x118B8, 0x118D8), (0x118B9, 0x118D9), (0x118BA, 0x118DA),
  (0x118BB, 0x118DB), (0x118BC, 0x118DC), (0x118BD, 0x118DD), (0x118BE, 0x118DE), (0x118BF, 0x118DF),
  (0x16E40, 0x16E60), (0x16E41, 0x16E61), (0x16E42, 0x16E62), (0x16E43, 0x16E63), (0x16E44, 0x16E64),
  (0x16E45, 0x16E65), (0x16E46, 0x16E66), (0x16E47, 0x16E67), (0x16E48, 0x16E68), (0x16E49, 0x16E69),
  (0x16E4A, 0x16E6A), (0x16E4B, 0x16E6B), (0x16E4C, 0x16E6C), (0x16E4D, 0x16E6D), (0x16E4E, 0x16E6E),
  (0x16E4F, 0x16E6F), (0x16E50, 0x16E70), (0x16E51, 0x16E71), (0x16E52, 0x16E72), (0x16E53, 0x16E73),
  (0x16E54, 0x16E74), (0x16E55, 0x16E75), (0x16E56, 0x16E76), (0x16E57, 0x16E77), (0x16E58, 0x16E78),
  (0x16E59, 0x16E79), (0x16E5A, 0x16E7A), (0x16E5B, 0x16E7B), (0x16E5C, 0x16E7C), (0x16E5D, 0x16E7D),
  (0x16E5E, 0x16E7E), (0x16E5F, 0x16E7F), (0x1E900, 0x1E922), (0x1E901, 0x1E923), (0x1E902, 0x1E924),
  (0x1E903, 0x1E925), (0x1E904, 0x1E926), (0x1E905, 0x1E927), (0x1E906, 0x1E928), (0x1E907, 0x1E929),
  (0x1E908, 0x1E92A), (0x1E909, 0x1E92B), (0x1E90A, 0x1E92C), (0x1E90B, 0x1E92D), (0x1E90C, 0x1E92E),
  (0x1E90D, 0x1E92F), (0x1E90E, 0x1E930), (0x1E90F, 0x1E931), (0x1E910, 0x1E932), (0x1E911, 0x1E933),
  (0x1E912, 0x1E934), (0x1E913, 0x1E935), (0x1E914, 0x1E936), (0x1E915, 0x1E937), (0x1E916, 0x1E938),
  (0x1E917, 0x1E939), (0x1E918, 0x1E93A), (0x1E919, 0x1E93B), (0x1E91A, 0x1E93C), (0x1E91B, 0x1E93D),
  (0x1E91C, 0x1E93E), (0x1E91D, 0x1E93F), (0x1E91E, 0x1E940), (0x1E91F, 0x1E941), (0x1E920, 0x1E942),
  (0x1E921, 0x1E943)]

set_option maxHeartbeats 800000 in
/-- Code-point ranges of the characters with the Unicode Case_Ignorable
property, used by the Final_Sigma context rule of `str.lower()`. -/
def ciRanges : List (Nat × Nat) := [
  (0x27, 0x27), (0x2E, 0x2E), (0x3A, 0x3A), (0x5E, 0x5E), (0x60, 0x60),
  (0xA8, 0xA8), (0xAD, 0xAD), (0xAF, 0xAF), (0xB4, 0xB4), (0xB7, 0xB8),
  (0x2B0, 0x36F), (0x374, 0x375), (0x37A, 0x37A), (0x384, 0x385), (0x387, 0x387),
  (0x483, 0x489), (0x559, 0x559), (0x55F, 0x55F), (0x591, 0x5BD), (0x5BF, 0x5BF),
  (0x5C1, 0x5C2), (0x5C4, 0x5C5), (0x5C7, 0x5C7), (0x5F4, 0x5F4), (0x600, 0x605),
  (0x610, 0x61A), (0x61C, 0x61C), (0x640, 0x640), (0x64B, 0x65F), (0x670, 0x670),
  (0x6D6, 0x6DD), (0x6DF, 0x6E8), (0x6EA, 0x6ED), (0x70F, 0x70F), (0x711, 0x711),
  (0x730, 0x74A), (0x7A6, 0x7B0), (0x7EB, 0x7F5), (0x7FA, 0x7FA), (0x7FD, 0x7FD),
  (0x816, 0x82D), (0x859, 0x85B), (0x888, 0x888), (0x890, 0x891), (0x898, 0x89F),
  (0x8C9, 0x902), (0x93A, 0x93A), (0x93C, 0x93C), (0x941, 0x948), (0x94D, 0x94D),
  (0x951, 0x957), (0x962, 0x963), (0x971, 0x971), (0x981, 0x981), (0x9BC, 0x9BC),
  (0x9C1, 0x9C4), (0x9CD, 0x9CD), (0x9E2, 0x9E3), (0x9FE, 0x9FE), (0xA01, 0xA02),
  (0xA3C, 0xA3C), (0xA41, 0xA42), (0xA47, 0xA48), (0xA4B, 0xA4D), (0xA51, 0xA51),
  (0xA70, 0xA71), (0xA75, 0xA75), (0xA81, 0xA82), (0xABC, 0xABC), (0xAC1, 0xAC5),
  (0xAC7, 0xAC8), (0xACD, 0xACD), (0xAE2, 0xAE3), (0xAFA, 0xAFF), (0xB01, 0xB01),
  (0xB3C, 0xB3C), (0xB3F, 0xB3F), (0xB41, 0xB44), (0xB4D, 0xB4D), (0xB55, 0xB56),
  (0xB62, 0xB63), (0xB82, 0xB82), (0xBC0, 0xBC0), (0xBCD, 0xBCD), (0xC00, 0xC00),
  (0xC04, 0xC04), (0xC3C, 0xC3C), (0xC3E, 0xC40), (0xC46, 0xC48), (0xC4A, 0xC4D),
  (0xC55, 0xC56), (0xC62, 0xC63), (0xC81, 0xC81), (0xCBC, 0xCBC), (0xCBF, 0xCBF),
  (0xCC6, 0xCC6), (0xCCC, 0xCCD), (0xCE2, 0xCE3), (0xD00, 0xD01), (0xD3B, 0xD3C),
  (0xD41, 0xD44), (0xD4D, 0xD4D), (0xD62, 0xD63), (0xD81, 0xD81), (0xDCA, 0xDCA),
  (0xDD2, 0xDD4), (0xDD6, 0xDD6), (0xE31, 0xE31), (0xE34, 0xE3A), (0xE46, 0xE4E),
  (0xEB1, 0xEB1), (0xEB4, 0xEBC), (0xEC6, 0xEC6), (0xEC8, 0xECD), (0xF18, 0xF19),
  (0xF35, 0xF35), (0xF37, 0xF37), (0xF39, 0xF39), (0xF71, 0xF7E), (0xF80, 0xF84),
  (0xF86, 0xF87), (0xF8D, 0xF97), (0xF99, 0xFBC), (0xFC6, 0xFC6), (0x102D, 0x1030),
  (0x1032, 0x1037), (0x1039, 0x103A), (0x103D, 0x103E), (0x1058, 0x1059), (0x105E, 0x1060),
  (0x1071, 0x1074), (0x1082, 0x1082), (0x1085, 0x1086), (0x108D, 0x108D), (0x109D, 0x109D),
  (0x10FC, 0x10FC), (0x135D, 0x135F), (0x1712, 0x1714), (0x1732, 0x1733), (0x1752, 0x1753),
  (0x1772, 0x1773), (0x17B4, 0x17B5), (0x17B7, 0x17BD), (0x17C6, 0x17C6), (0x17C9, 0x17D3),
  (0x17D7, 0x17D7), (0x17DD, 0x17DD), (0x180B, 0x180F), (0x1843, 0x1843), (0x1885, 0x1886),
  (0x18A9, 0x18A9), (0x1920, 0x1922), (0x1927, 0x1928), (0x1932, 0x1932), (0x1939, 0x193B),
  (0x1A17, 0x1A18), (0x1A1B, 0x1A1B), (0x1A56, 0x1A56), (0x1A58, 0x1A5E), (0x1A60, 0x1A60),
  (0x1A62, 0x1A62), (0x1A65, 0x1A6C), (0x1A73, 0x1A7C), (0x1A7F, 0x1A7F), (0x1AA7, 0x1AA7),
  (0x1AB0, 0x1ACE), (0x1B00, 0x1B03), (0x1B34, 0x1B34), (0x1B36, 0x1B3A), (0x1B3C, 0x1B3C),
  (0x1B42, 0x1B42), (0x1B6B, 0x1B73), (0x1B80, 0x1B81), (0x1BA2, 0x1BA5), (0x1BA8, 0x1BA9),
  (0x1BAB, 0x1BAD), (0x1BE6, 0x1BE6), (0x1BE8, 0x1BE9), (0x1BED, 0x1BED), (0x1BEF, 0x1BF1),
  (0x1C2C, 0x1C33), (0x1C36, 0x1C37), (0x1C78, 0x1C7D), (0x1CD0, 0x1CD2), (0x1CD4, 0x1CE0),
  (0x1CE2, 0x1CE8), (0x1CED, 0x1CED), (0x1CF4, 0x1CF4), (0x1CF8, 0x1CF9), (0x1D2C, 0x1D6A),
  (0x1D78, 0x1D78), (0x1D9B, 0x1DFF), (0x1FBD, 0x1FBD), (0x1FBF, 0x1FC1), (0x1FCD, 0x1FCF),
  (0x1FDD, 0x1FDF), (0x1FED, 0x1FEF), (0x1FFD, 0x1FFE), (0x200B, 0x200F), (0x2018, 0x2019),
  (0x2024, 0x2024), (0x2027, 0x2027), (0x202A, 0x202E), (0x2060, 0x2064), (0x2066, 0x206F),
  (0x2071, 0x2071), (0x207F, 0x207F), (0x2090, 0x209C), (0x20D0, 0x20F0), (0x2C7C, 0x2C7D),
  (0x2CEF, 0x2CF1), (0x2D6F, 0x2D6F), (0x2D7F, 0x2D7F), (0x2DE0, 0x2DFF), (0x2E2F, 0x2E2F),
  (0x3005, 0x3005), (0x302A, 0x302D), (0x3031, 0x3035), (0x303B, 0x303B), (0x3099, 0x309E),
  (0x30FC, 0x30FE), (0xA015, 0xA015), (0xA4F8, 0xA4FD), (0xA60C, 0xA60C), (0xA66F, 0xA672),
  (0xA674, 0xA67D), (0xA67F, 0xA67F), (0xA69C, 0xA69F), (0xA6F0, 0xA6F1), (0xA700, 0xA721),
  (0xA770, 0xA770), (0xA788, 0xA78A), (0xA7F2, 0xA7F4), (0xA7F8, 0xA7F9), (0xA802, 0xA802),
  (0xA806, 0xA806), (0xA80B, 0xA80B), (0xA825, 0xA826), (0xA82C, 0xA82C), (0xA8C4, 0xA8C5),
  (0xA8E0, 0xA8F1), (0xA8FF, 0xA8FF), (0xA926, 0xA92D), (0xA947, 0xA951), (0xA980, 0xA982),
  (0xA9B3, 0xA9B3), (0xA9B6, 0xA9B9), (0xA9BC, 0xA9BD), (0xA9CF, 0xA9CF), (0xA9E5, 0xA9E6),
  (0xAA29, 0xAA2E), (0xAA31, 0xAA32), (0xAA35, 0xAA36), (0xAA43, 0xAA43), (0xAA4C, 0xAA4C),
  (0xAA70, 0xAA70), (0xAA7C, 0xAA7C), (0xAAB0, 0xAAB0), (0xAAB2, 0xAAB4), (0xAAB7, 0xAAB8),
  (0xAABE, 0xAABF), (0xAAC1, 0xAAC1), (0xAADD, 0xAADD), (0xAAEC, 0xAAED), (0xAAF3, 0xAAF4),
  (0xAAF6, 0xAAF6), (0xAB5B, 0xAB5F), (0xAB69, 0xAB6B), (0xABE5, 0xABE5), (0xABE8, 0xABE8),
  (0xABED, 0xABED), (0xFB1E, 0xFB1E), (0xFBB2, 0xFBC2), (0xFE00, 0xFE0F), (0xFE13, 0xFE13),
  (0xFE20, 0xFE2F), (0xFE52, 0xFE52), (0xFE55, 0xFE55), (0xFEFF, 0xFEFF), (0xFF07, 0xFF07),
  (0xFF0E, 0xFF0E), (0xFF1A, 0xFF1A), (0xFF3E, 0xFF3E), (0xFF40, 0xFF40), (0xFF70, 0xFF70),
  (0xFF9E, 0xFF9F), (0xFFE3, 0xFFE3), (0xFFF9, 0xFFFB), (0x101FD, 0x101FD), (0x102E0, 0x102E0),
  (0x10376, 0x1037A), (0x10780, 0x10785), (0x10787, 0x107B0), (0x107B2, 0x107BA), (0x10A01, 0x10A03),
  (0x10A05, 0x10A06), (0x10A0C, 0x10A0F), (0x10A38, 0x10A3A), (0x10A3F, 0x10A3F), (0x10AE5, 0x10AE6),
  (0x10D24, 0x10D27), (0x10EAB, 0x10EAC), (0x10F46, 0x10F50), (0x10F82, 0x10F85), (0x11001, 0x11001),
  (0x11038, 0x11046), (0x11070, 0x11070), (0x11073, 0x11074), (0x1107F, 0x11081), (0x110B3, 0x110B6),
  (0x110B9, 0x110BA), (0x110BD, 0x110BD), (0x110C2, 0x110C2), (0x110CD, 0x110CD), (0x11100, 0x11102),
  (0x11127, 0x1112B), (0x1112D, 0x11134), (0x11173, 0x11173), (0x11180, 0x11181), (0x111B6, 0x111BE),
  (0x111C9, 0x111CC), (0x111CF, 0x111CF), (0x1122F, 0x11231), (0x11234, 0x11234), (0x11236, 0x11237),
  (0x1123E, 0x1123E), (0x112DF, 0x112DF), (0x112E3, 0x112EA), (0x11300, 0x11301), (0x1133B, 0x1133C),
  (0x11340, 0x11340), (0x11366, 0x1136C), (0x11370, 0x11374), (0x11438, 0x1143F), (0x11442, 0x11444),
  (0x11446, 0x11446), (0x1145E, 0x1145E), (0x114B3, 0x114B8), (0x114BA, 0x114BA), (0x114BF, 0x114C0),
  (0x114C2, 0x114C3), (0x115B2, 0x115B5), (0x115BC, 0x115BD), (0x115BF, 0x115C0), (0x115DC, 0x115DD),
  (0x11633, 0x1163A), (0x1163D, 0x1163D), (0x1163F, 0x11640), (0x116AB, 0x116AB), (0x116AD, 0x116AD),
  (0x116B0, 0x116B5), (0x116B7, 0x116B7), (0x1171D, 0x1171F), (0x11722, 0x11725), (0x11727, 0x1172B),
  (0x1182F, 0x11837), (0x11839, 0x1183A), (0x1193B, 0x1193C), (0x1193E, 0x1193E), (0x11943, 0x11943),
  (0x119D4, 0x119D7), (0x119DA, 0x119DB), (0x119E0, 0x119E0), (0x11A01, 0x11A0A), (0x11A33, 0x11A38),
  (0x11A3B, 0x11A3E), (0x11A47, 0x11A47), (0x11A51, 0x11A56), (0x11A59, 0x11A5B), (0x11A8A, 0x11A96),
  (0x11A98, 0x11A99), (0x11C30, 0x11C36), (0x11C38, 0x11C3D), (0x11C3F, 0x11C3F), (0x11C92, 0x11CA7),
  (0x11CAA, 0x11CB0), (0x11CB2, 0x11CB3), (0x11CB5, 0x11CB6), (0x11D31, 0x11D36), (0x11D3A, 0x11D3A),
  (0x11D3C, 0x11D3D), (0x11D3F, 0x11D45), (0x11D47, 0x11D47), (0x11D90, 0x11D91), (0x11D95, 0x11D95),
  (0x11D97, 0x11D97), (0x11EF3, 0x11EF4), (0x13430, 0x13438), (0x16AF0, 0x16AF4), (0x16B30, 0x16B36),
  (0x16B40, 0x16B43), (0x16F4F, 0x16F4F), (0x16F8F, 0x16F9F), (0x16FE0, 0x16FE1), (0x16FE3, 0x16FE4),
  (0x1AFF0, 0x1AFF3), (0x1AFF5, 0x1AFFB), (0x1AFFD, 0x1AFFE), (0x1BC9D, 0x1BC9E), (0x1BCA0, 0x1BCA3),
  (0x1CF00, 0x1CF2D), (0x1CF30, 0x1CF46), (0x1D167, 0x1D169), (0x1D173, 0x1D182), (0x1D185, 0x1D18B),
  (0x1D1AA, 0x1D1AD), (0x1D242, 0x1D244), (0x1DA00, 0x1DA36), (0x1DA3B, 0x1DA6C), (0x1DA75, 0x1DA75),
  (0x1DA84, 0x1DA84), (0x1DA9B, 0x1DA9F), (0x1DAA1, 0x1DAAF), (0x1E000, 0x1E006), (0x1E008, 0x1E018),
  (0x1E01B, 0x1E021), (0x1E023, 0x1E024), (0x1E026, 0x1E02A), (0x1E130, 0x1E13D), (0x1E2AE, 0x1E2AE),
  (0x1E2EC, 0x1E2EF), (0x1E8D0, 0x1E8D6), (0x1E944, 0x1E94B), (0x1F3FB, 0x1F3FF), (0xE0001, 0xE0001),
  (0xE0020, 0xE007F), (0xE0100, 0xE01EF)]

set_option maxHeartbeats 800000 in
/-- Code-point ranges of the Cased characters that are not Case_Ignorable.
The Final_Sigma rule only ever queries Cased on the first character that is
not Case_Ignorable, so these ranges fully determine its behaviour. -/
def casedRanges : List (Nat × Nat) := [
  (0x41, 0x5A), (0x61, 0x7A), (0xAA, 0xAA), (0xB5, 0xB5), (0xBA, 0xBA),
  (0xC0, 0xD6), (0xD8, 0xF6), (0xF8, 0x1BA), (0x1BC, 0x1BF), (0x1C4, 0x293),
  (0x295, 0x2AF), (0x370, 0x373), (0x376, 0x377), (0x37B, 0x37D), (0x37F, 0x37F),
  (0x386, 0x386), (0x388, 0x38A), (0x38C, 0x38C), (0x38E, 0x3A1), (0x3A3, 0x3F5),
  (0x3F7, 0x481), (0x48A, 0x52F), (0x531, 0x556), (0x560, 0x588), (0x10A0, 0x10C5),
  (0x10C7, 0x10C7), (0x10CD, 0x10CD), (0x10D0, 0x10FA), (0x10FD, 0x10FF), (0x13A0, 0x13F5),
  (0x13F8, 0x13FD), (0x1C80, 0x1C88), (0x1C90, 0x1CBA), (0x1CBD, 0x1CBF), (0x1D00, 0x1D2B),
  (0x1D6B, 0x1D77), (0x1D79, 0x1D9A), (0x1E00, 0x1F15), (0x1F18, 0x1F1D), (0x1F20, 0x1F45),
  (0x1F48, 0x1F4D), (0x1F50, 0x1F57), (0x1F59, 0x1F59), (0x1F5B, 0x1F5B), (0x1F5D, 0x1F5D),
  (0x1F5F, 0x1F7D), (0x1F80, 0x1FB4), (0x1FB6, 0x1FBC), (0x1FBE, 0x1FBE), (0x1FC2, 0x1FC4),
  (0x1FC6, 0x1FCC), (0x1FD0, 0x1FD3), (0x1FD6, 0x1FDB), (0x1FE0, 0x1FEC), (0x1FF2, 0x1FF4),
  (0x1FF6, 0x1FFC), (0x2102, 0x2102), (0x2107, 0x2107), (0x210A, 0x2113), (0x2115, 0x2115),
  (0x2119, 0x211D), (0x2124, 0x2124), (0x2126, 0x2126), (0x2128, 0x2128), (0x212A, 0x212D),
  (0x212F, 0x2134), (0x2139, 0x2139), (0x213C, 0x213F), (0x2145, 0x2149), (0x214E, 0x214E),
  (0x2160, 0x217F), (0x2183, 0x2184), (0x24B6, 0x24E9), (0x2C00, 0x2C7B), (0x2C7E, 0x2CE4),
  (0x2CEB, 0x2CEE), (0x2CF2, 0x2CF3), (0x2D00, 0x2D25), (0x2D27, 0x2D27), (0x2D2D, 0x2D2D),
  (0xA640, 0xA66D), (0xA680, 0xA69B), (0xA722, 0xA76F), (0xA771, 0xA787), (0xA78B, 0xA78E),
  (0xA790, 0xA7CA), (0xA7D0, 0xA7D1), (0xA7D3, 0xA7D3), (0xA7D5, 0xA7D9), (0xA7F5, 0xA7F6),
  (0xA7FA, 0xA7FA), (0xAB30, 0xAB5A), (0xAB60, 0xAB68), (0xAB70, 0xABBF), (0xFB00, 0xFB06),
  (0xFB13, 0xFB17), (0xFF21, 0xFF3A), (0xFF41, 0xFF5A), (0x10400, 0x1044F), (0x104B0, 0x104D3),
  (0x104D8, 0x104FB), (0x10570, 0x1057A), (0x1057C, 0x1058A), (0x1058C, 0x10592), (0x10594, 0x10595),
  (0x10597, 0x105A1), (0x105A3, 0x105B1), (0x105B3, 0x105B9), (0x105BB, 0x105BC), (0x10C80, 0x10CB2),
  (0x10CC0, 0x10CF2), (0x118A0, 0x118DF), (0x16E40, 0x16E7F), (0x1D400, 0x1D454), (0x1D456, 0x1D49C),
  (0x1D49E, 0x1D49F), (0x1D4A2, 0x1D4A2), (0x1D4A5, 0x1D4A6), (0x1D4A9, 0x1D4AC), (0x1D4AE, 0x1D4B9),
  (0x1D4BB, 0x1D4BB), (0x1D4BD, 0x1D4C3), (0x1D4C5, 0x1D505), (0x1D507, 0x1D50A), (0x1D50D, 0x1D514),
  (0x1D516, 0x1D51C), (0x1D51E, 0x1D539), (0x1D53B, 0x1D53E), (0x1D540, 0x1D544), (0x1D546, 0x1D546),
  (0x1D54A, 0x1D550), (0x1D552, 0x1D6A5), (0x1D6A8, 0x1D6C0), (0x1D6C2, 0x1D6DA), (0x1D6DC, 0x1D6FA),
  (0x1D6FC, 0x1D714), (0x1D716, 0x1D734), (0x1D736, 0x1D74E), (0x1D750, 0x1D76E), (0x1D770, 0x1D788),
  (0x1D78A, 0x1D7A8), (0x1D7AA, 0x1D7C2), (0x1D7C4, 0x1D7CB), (0x1DF00, 0x1DF09), (0x1DF0B, 0x1DF1E),
  (0x1E900, 0x1E943), (0x1F130, 0x1F149), (0x1F150, 0x1F169), (0x1F170, 0x1F189)]

/-- Membership of a code point in a list of inclusive ranges. -/
def inRanges (rs : List (Nat × Nat)) (n : Nat) : Bool :=
  rs.any (fun r => decide (r.1 ≤ n) && decide (n ≤ r.2))

/-- The Cased test of the Final_Sigma rule (queried on non-Case_Ignorable
characters only). -/
def cased (c : Char) : Bool := inRanges casedRanges c.toNat

/-- The Case_Ignorable test of the Final_Sigma rule. -/
def caseIgnorable (c : Char) : Bool := inRanges ciRanges c.toNat

/-- Lowercase one character other than U+03A3: the table mapping, with U+0130
LATIN CAPITAL LETTER I WITH DOT ABOVE expanding to U+0069 U+0307. -/
def lowerChar (c : Char) : List Char :=
  if c.toNat = 0x130 then [Char.ofNat 0x69, Char.ofNat 0x307]
  else
    match List.lookup c.toNat lowerTable with
    | some n => [Char.ofNat n]
    | none => [c]

/-- Backward half of the Final_Sigma test: given the characters preceding the
sigma in reverse order, skip Case_Ignorable characters; the test passes iff
a character remains and it is Cased. -/
def sigmaPre : List Char → Bool
  | [] => false
  | c :: rest => if caseIgnorable c then sigmaPre rest else cased c

/-- Forward half of the Final_Sigma test: given the characters following the
sigma, skip Case_Ignorable characters; the test passes iff no character
remains or the first remaining one is not Cased. -/
def sigmaPost : List Char → Bool
  | [] => true
  | c :: rest => if caseIgnorable c then sigmaPost rest else !(cased c)

/-- `str.lower()` character by character; `pre` holds the already-processed
original characters in reverse order, so that U+03A3 can be lowered to U+03C2
(final form) exactly in the Final_Sigma contexts, as CPython's
`handle_capital_sigma` does. -/
def lowerAux : List Char → List Char → List Char
  | _, [] => []
  | pre, c :: rest =>
    (if c.toNat = 0x3A3 then
      [if sigmaPre pre && sigmaPost rest then 'ς' else 'σ']
    else lowerChar c) ++ lowerAux (c :: pre) rest

/-- Python `str.lower()` applied before matching (line 20 of the source), as
the character list that `difflib.SequenceMatcher` works on. -/
def lower (s : String) : List Char := lowerAux [] s.data

/-- Character comparison `a[i] == b[j]`; `false` when either index is out of
range (the CPython while-loop guards establish the bounds before indexing). -/
def chEq (a b : List Char) (i j : Nat) : Bool :=
  match a.get? i, b.get? j with
  | some x, some y => x == y
  | _, _ => false

/-- The running best block `(besti, bestj, bestsize)` of
`SequenceMatcher.find_longest_match`. -/
structure Best where
  besti : Nat
  bestj : Nat
  bestsize : Nat
deriving DecidableEq

/-- The autojunk heuristic of `SequenceMatcher.__chain_b` (autojunk defaults
to `True`): when `b` has at least 200 elements, every element occurring more
than `len(b) // 100 + 1` times is popular and its positions are deleted from
`b2j`. -/
def popular (b : List Char) (c : Char) : Bool :=
  decide (200 ≤ b.length) && decide (b.length / 100 + 1 < b.count c)

/-- Inner loop of `find_longest_match`: one row `i` (character `c = a[i]`) of
the dynamic program.  `bs` is the remaining suffix of `b` starting at position
`j`; `j2len` is the previous row's dictionary, `nj` the `newj2len` dictionary
being built (missing keys read as 0), `best` the running best block.  CPython
iterates over `b2j[a[i]]` (the ascending match positions of `c` in `b`,
deleted entirely when `c` was purged as popular, `pop c`); iterating over all
positions and acting on matches of non-popular characters is the same. -/
def dpRow (pop : Char → Bool) (c : Char) (i : Nat) (j2len : Nat → Nat) :
    List Char → Nat → (Nat → Nat) → Best → (Nat → Nat) × Best
  | [], _, nj, best => (nj, best)
  | y :: bs, j, nj, best =>
    if y == c && !pop c then
      let k := (if j = 0 then 0 else j2len (j - 1)) + 1
      let nj' := fun j' => if j' = j then k else nj j'
      let best' : Best := if best.bestsize < k then ⟨i + 1 - k, j + 1 - k, k⟩ else best
      dpRow pop c i j2len bs (j + 1) nj' best'
    else
      dpRow pop c i j2len bs (j + 1) nj best

/-- Outer loop of `find_longest_match`: rows `i` over the suffix of `a`,
with `b` fixed, threading the row dictionary and the best block. -/
def dpLoop (pop : Char → Bool) (b : List Char) :
    List Char → Nat → (Nat → Nat) → Best → Best
  | [], _, _, best => best
  | c :: rest, i, j2len, best =>
    let r := dpRow pop c i j2len b 0 (fun _ => 0) best
    dpLoop pop b rest (i + 1) r.1 r.2

/-- First extension loop of `find_longest_match`: grow the block backwards
while `besti > alo`, `bestj > blo` and `a[besti-1] == b[bestj-1]` (the junk
test is vacuous with `isjunk=None`; popular characters are not junk). -/
def extendBack (a b : List Char) : Nat → Nat → Nat → Best
  | bi + 1, bj + 1, k =>
    if chEq a b bi bj then extendBack a b bi bj (k + 1) else ⟨bi + 1, bj + 1, k⟩
  | bi, bj, k => ⟨bi, bj, k⟩

/-- Second extension loop: grow the block forwards while
`besti + bestsize < ahi`, `bestj + bestsize < bhi` and the characters agree.
The fuel `a.length - (bi + k)` is exactly the loop variant: it is zero iff the
first guard fails, and each iteration decreases it by one. -/
def extendFwdGo (a b : List Char) (bi bj : Nat) : Nat → Nat → Nat
  | 0, k => k
  | fuel + 1, k =>
    if chEq a b (bi + k) (bj + k) then extendFwdGo a b bi bj fuel (k + 1) else k

/-- `SequenceMatcher.find_longest_match` on the whole (sliced) sequences:
the dynamic program followed by the two non-junk extension loops; `pop` is
the popularity purge computed from the full second sequence. -/
def find_longest_match (pop : Char → Bool) (a b : List Char) : Best :=
  let d := dpLoop pop b a 0 (fun _ => 0) ⟨0, 0, 0⟩
  let e := extendBack a b d.besti d.bestj d.bestsize
  ⟨e.besti, e.bestj, extendFwdGo a b e.besti e.bestj (a.length - (e.besti + e.bestsize)) e.bestsize⟩

/-- Total size of the matching blocks of `get_matching_blocks`: the longest
match splits the problem into the part before and the part after the block,
exactly as the CPython queue does; every subproblem shares the `b2j` (and so
the purge predicate) built from the full second sequence. -/
def matchingSizeGo (pop : Char → Bool) : Nat → List Char → List Char → Nat
  | 0, _, _ => 0
  | fuel + 1, a, b =>
    let m := find_longest_match pop a b
    if m.bestsize = 0 then 0
    else
      m.bestsize + matchingSizeGo pop fuel (a.take m.besti) (b.take m.bestj)
        + matchingSizeGo pop fuel (a.drop (m.besti + m.bestsize)) (b.drop (m.bestj + m.bestsize))

/-- Sum of the sizes of all matching blocks (the `matches` of
`SequenceMatcher.ratio`). -/
def matchingSize (a b : List Char) : Nat :=
  matchingSizeGo (popular b) (a.length + b.length) a b

/-- `SequenceMatcher.ratio()` = `_calculate_ratio(matches, len(a) + len(b))`:
`2.0 * matches / length` and `1.0` when `length` is zero. -/
def similarity (a b : List Char) : ℚ :=
  if a.length + b.length = 0 then 1
  else (2 * matchingSize a b : ℚ) / ((a.length : ℚ) + (b.length : ℚ))

/-- Length of the run of dynamic-program matches ending at the diagonal cell
`(j, j)` when both sequences are `s`: the number of consecutive non-popular
positions ending at `j`.  Proof-side definition used to show that on equal
sequences the best block is always diagonal. -/
def diagRun (pop : Char → Bool) (s : List Char) : Nat → Nat
  | 0 =>
    match s.get? 0 with
    | some c => if pop c then 0 else 1
    | none => 0
  | i + 1 =>
    match s.get? (i + 1) with
    | some c => if pop c then 0 else diagRun pop s i + 1
    | none => 0

/-- The evaluator: only state is the configured threshold
(`__init__`, line 15-16 of the source; the script instantiates 0.7). -/
structure BPMNEvaluator where
  threshold : ℚ
deriving DecidableEq

/-- `BPMNEvaluator._is_match` (lines 18-20):
`SequenceMatcher(None, str1.lower(), str2.lower()).ratio() >= self.threshold`. -/
def BPMNEvaluator.is_match (e : BPMNEvaluator) (str1 str2 : String) : Bool :=
  decide (e.threshold ≤ similarity (lower str1) (lower str2))

/-- Round half to even to an integer (Python's `round` on the idealised
rational values). -/
def roundHalfEven (q : ℚ) : ℤ :=
  if q - Int.floor q < 1 / 2 then Int.floor q
  else if (1 : ℚ) / 2 < q - Int.floor q then Int.floor q + 1
  else if Int.floor q % 2 = 0 then Int.floor q else Int.floor q + 1

/-- Python `round(x, 2)`: round half to even at two decimal places. -/
def round2 (q : ℚ) : ℚ := (roundHalfEven (q * 100) : ℚ) / 100

/-- The dictionary returned by `calculate_metrics` (lines 53-59). -/
structure MatchResult where
  precision : ℚ
  «recall» : ℚ
  tp : List String
  fp : List String
  fn : List String
deriving DecidableEq

/-- The matching loop of `calculate_metrics` (lines 28-44): for each extracted
label in order, find the first remaining ground-truth label passing
`_is_match` (`for gt in remaining_gt: ... break`); on success append the
extracted label to `true_positives` and `remaining_gt.remove(matched_gt)`
(= erase the first occurrence of that value); otherwise append to
`false_positives`.  Returns (true_positives, false_positives, remaining_gt). -/
def BPMNEvaluator.matchLoop (e : BPMNEvaluator) :
    List String → List String → List String × List String × List String
  | [], remaining => ([], [], remaining)
  | x :: rest, remaining =>
    match remaining.find? (fun gt => e.is_match x gt) with
    | some g =>
      let r := e.matchLoop rest (remaining.erase g)
      (x :: r.1, r.2.1, r.2.2)
    | none =>
      let r := e.matchLoop rest remaining
      (r.1, x :: r.2.1, r.2.2)

/-- `BPMNEvaluator.calculate_metrics` (lines 22-59): run the matching loop on a
copy of the ground truth, then `precision = tp/(tp+fp) if (tp+fp) > 0 else
0.0`, `recall = tp/(tp+fn) if (tp+fn) > 0 else 0.0`, both rounded to two
decimal places; `fn` is what remains of the ground truth. -/
def BPMNEvaluator.calculate_metrics (e : BPMNEvaluator)
    (ground_truth_list extracted_list : List String) : MatchResult :=
  match e.matchLoop extracted_list ground_truth_list with
  | (tps, fps, rem) =>
    let tp := tps.length
    let fp := fps.length
    let fn := rem.length
    let precision : ℚ := if 0 < tp + fp then (tp : ℚ) / ((tp : ℚ) + (fp : ℚ)) else 0
    let «recall» : ℚ := if 0 < tp + fn then (tp : ℚ) / ((tp : ℚ) + (fn : ℚ)) else 0
    ⟨round2 precision, round2 «recall», tps, fps, rem⟩

/-- Greedy matcher as the specification words it (§4.2 of the spec): for each
extracted label in the given order, scan "remaining" in its current order and
take the FIRST ground-truth label whose similarity check passes; record the
extracted label as a true positive and remove the matched ground-truth label
from "remaining", or record the extracted label as a false positive; the
labels still in "remaining" at the end are the false negatives.  Stated with
`List.find?` (first passing label) and `List.eraseP` (remove the first
passing label); compared against the source's loop in claim C1. -/
def specGreedy (sim : String → String → Bool) :
    List String → List String → List String × List String × List String
  | [], remaining => ([], [], remaining)
  | x :: rest, remaining =>
    match remaining.find? (sim x) with
    | some _ =>
      let r := specGreedy sim rest (remaining.eraseP (sim x))
      (x :: r.1, r.2.1, r.2.2)
    | none =>
      let r := specGreedy sim rest remaining
      (r.1, x :: r.2.1, r.2.2)

/-- The matching loop with Python's failure modes made explicit:
`list.remove(x)` raises `ValueError` when `x` is not present, modelled as
`none`.  This is the only operation in the loop that can raise. -/
def BPMNEvaluator.matchLoopE (e : BPMNEvaluator) :
    List String → List String → Option (List String × List String × List String)
  | [], remaining => some ([], [], remaining)
  | x :: rest, remaining =>
    match remaining.find? (fun gt => e.is_match x gt) with
    | some g =>
      if g ∈ remaining then
        match e.matchLoopE rest (remaining.erase g) with
        | some r => some (x :: r.1, r.2.1, r.2.2)
        | none => none
      else none
    | none =>
      match e.matchLoopE rest remaining with
      | some r => some (r.1, x :: r.2.1, r.2.2)
      | none => none

/-- `calculate_metrics` with Python's failure modes made explicit: the
matching loop's `remove` can raise, and a division is only legal with a
nonzero denominator (the source guards both divisions with `(tp+fp) > 0`
resp. `(tp+fn) > 0`).  `none` models an uncaught exception. -/
def BPMNEvaluator.calculate_metricsE (e : BPMNEvaluator)
    (ground_truth_list extracted_list : List String) : Option MatchResult :=
  match e.matchLoopE extracted_list ground_truth_list with
  | none => none
  | some (tps, fps, rem) =>
    let tp := tps.length
    let fp := fps.length
    let fn := rem.length
    let precisionE : Option ℚ :=
      if 0 < tp + fp then
        if ((tp : ℚ) + (fp : ℚ)) = 0 then none else some ((tp : ℚ) / ((tp : ℚ) + (fp : ℚ)))
      else some 0
    let recallE : Option ℚ :=
      if 0 < tp + fn then
        if ((tp : ℚ) + (fn : ℚ)) = 0 then none else some ((tp : ℚ) / ((tp : ℚ) + (fn : ℚ)))
      else some 0
    match precisionE, recallE with
    | some p, some r => some ⟨round2 p, round2 r, tps, fps, rem⟩
    | _, _ => none

/-- A heap of Python list objects, addressed by natural numbers: used to state
that `calculate_metrics` never mutates the caller's lists (claim C9).
`next` is the next fresh address; addresses below `next` are allocated. -/
structure Heap where
  store : Nat → List String
  next : Nat

/-- Allocate a fresh list object holding `v`. -/
def Heap.alloc (h : Heap) (v : List String) : Nat × Heap :=
  (h.next, ⟨fun n => if n = h.next then v else h.store n, h.next + 1⟩)

/-- Overwrite the list object at address `r` (an in-place list mutation). -/
def Heap.write (h : Heap) (r : Nat) (v : List String) : Heap :=
  ⟨fun n => if n = r then v else h.store n, h.next⟩

/-- The matching loop acting on heap objects, exactly as the Python `for` loop
does: `true_positives.append(extracted)`, `remaining_gt.remove(matched_gt)`
and `false_positives.append(extracted)` are in-place mutations of the list
objects at `tpR`, `remR` and `fpR`. -/
def BPMNEvaluator.metricsLoop (e : BPMNEvaluator) (tpR fpR remR : Nat) :
    List String → Heap → Heap
  | [], h => h
  | x :: rest, h =>
    match (h.store remR).find? (fun gt => e.is_match x gt) with
    | some g =>
      let h1 := h.write tpR (h.store tpR ++ [x])
      let h2 := h1.write remR ((h1.store remR).erase g)
      e.metricsLoop tpR fpR remR rest h2
    | none =>
      let h1 := h.write fpR (h.store fpR ++ [x])
      e.metricsLoop tpR fpR remR rest h1

/-- `calculate_metrics` as it acts on the caller's heap: `ground_truth_list`
and `extracted_list` are addresses of caller-owned list objects; the body
allocates `true_positives = []`, `false_positives = []` and the copy
`remaining_gt = ground_truth_list[:]` (line 26), runs the loop, and reads the
final local objects.  Returns the result dictionary and the final heap. -/
def BPMNEvaluator.calculate_metrics_heap (e : BPMNEvaluator) (h : Heap)
    (gtR exR : Nat) : MatchResult × Heap :=
  match h.alloc [] with
  | (tpR, h1) =>
    match h1.alloc [] with
    | (fpR, h2) =>
      match h2.alloc (h2.store gtR) with
      | (remR, h3) =>
        let h4 := e.metricsLoop tpR fpR remR (h3.store exR) h3
        let tps := h4.store tpR
        let fps := h4.store fpR
        let rem := h4.store remR
        let tp := tps.length
        let fp := fps.length
        let fn := rem.length
        let precision : ℚ := if 0 < tp + fp then (tp : ℚ) / ((tp : ℚ) + (fp : ℚ)) else 0
        let «recall» : ℚ := if 0 < tp + fn then (tp : ℚ) / ((tp : ℚ) + (fn : ℚ)) else 0
        (⟨round2 precision, round2 «recall», tps, fps, rem⟩, h4)

/-! ### Bounds on the longest-match search -/

lemma chEq_bounds {a b : List Char} {i j : Nat} (h : chEq a b i j = true) :
    i < a.length ∧ j < b.length := by
  unfold chEq at h
  rcases ha : a.get? i with _ | x <;> rcases hb : b.get? j with _ | y <;>
    rw [ha, hb] at h <;> simp at h
  obtain ⟨hi, -⟩ := List.get?_eq_some.mp ha
  obtain ⟨hj, -⟩ := List.get?_eq_some.mp hb
  exact ⟨hi, hj⟩

lemma chEq_self {a : List Char} {m : Nat} (h : m < a.length) : chEq a a m m = true := by
  unfold chEq
  rw [List.get?_eq_get h]
  simp

lemma dpRow_bound (pop : Char → Bool) (c : Char) (i : Nat) (j2len : Nat → Nat) (la lb : Nat)
    (hj2 : ∀ j, j2len j ≤ min i (j + 1)) (hila : i < la) :
    ∀ (bs : List Char) (j : Nat) (nj : Nat → Nat) (best : Best),
      j + bs.length ≤ lb →
      (∀ j', nj j' ≤ min (i + 1) (j' + 1)) →
      best.besti + best.bestsize ≤ la →
      best.bestj + best.bestsize ≤ lb →
      (∀ j', (dpRow pop c i j2len bs j nj best).1 j' ≤ min (i + 1) (j' + 1)) ∧
      (dpRow pop c i j2len bs j nj best).2.besti
          + (dpRow pop c i j2len bs j nj best).2.bestsize ≤ la ∧
      (dpRow pop c i j2len bs j nj best).2.bestj
          + (dpRow pop c i j2len bs j nj best).2.bestsize ≤ lb := by
  intro bs
  induction bs with
  | nil =>
    intro j nj best hlb hnj h1 h2
    exact ⟨hnj, h1, h2⟩
  | cons y bs ih =>
    intro j nj best hlb hnj h1 h2
    have hlen : j + (y :: bs).length = j + bs.length + 1 := by simp; omega
    by_cases hy : (y == c && !pop c) = true
    · rw [dpRow, if_pos hy]
      have hk1 : (if j = 0 then 0 else j2len (j - 1)) + 1 ≤ i + 1 := by
        rcases Nat.eq_zero_or_pos j with hj0 | hj0
        · simp [hj0]
        · rw [if_neg (Nat.pos_iff_ne_zero.mp hj0)]
          have := hj2 (j - 1)
          omega
      have hk2 : (if j = 0 then 0 else j2len (j - 1)) + 1 ≤ j + 1 := by
        rcases Nat.eq_zero_or_pos j with hj0 | hj0
        · simp [hj0]
        · rw [if_neg (Nat.pos_iff_ne_zero.mp hj0)]
          have := hj2 (j - 1)
          omega
      apply ih (j + 1)
      · omega
      · intro j'
        by_cases hj' : j' = j
        · subst hj'
          rw [if_pos rfl]
          omega
        · simp only [if_neg hj']
          exact hnj j'
      · by_cases hb : best.bestsize < (if j = 0 then 0 else j2len (j - 1)) + 1
        · simp only [if_pos hb]
          omega
        · simp only [if_neg hb]
          exact h1
      · by_cases hb : best.bestsize < (if j = 0 then 0 else j2len (j - 1)) + 1
        · simp only [if_pos hb]
          have hjlb : j + 1 ≤ lb := by simp at hlb; omega
          omega
        · simp only [if_neg hb]
          exact h2
    · rw [dpRow, if_neg hy]
      apply ih (j + 1)
      · simp at hlb; omega
      · exact hnj
      · exact h1
      · exact h2

lemma dpLoop_bound (pop : Char → Bool) (b : List Char) (la : Nat) :
    ∀ (rest : List Char) (i : Nat) (j2len : Nat → Nat) (best : Best),
      i + rest.length ≤ la →
      (∀ j, j2len j ≤ min i (j + 1)) →
      best.besti + best.bestsize ≤ la →
      best.bestj + best.bestsize ≤ b.length →
      (dpLoop pop b rest i j2len best).besti + (dpLoop pop b rest i j2len best).bestsize ≤ la ∧
      (dpLoop pop b rest i j2len best).bestj
          + (dpLoop pop b rest i j2len best).bestsize ≤ b.length := by
  intro rest
  induction rest with
  | nil =>
    intro i j2len best hla hj2 h1 h2
    exact ⟨h1, h2⟩
  | cons c rest ih =>
    intro i j2len best hla hj2 h1 h2
    rw [dpLoop]
    have hi : i < la := by simp at hla; omega
    obtain ⟨hn, hb1, hb2⟩ :=
      dpRow_bound pop c i j2len la b.length hj2 hi b 0 (fun _ => 0) best (by simp)
        (fun j' => by simp) h1 h2
    apply ih (i + 1)
    · simp at hla; omega
    · intro j
      have := hn j
      omega
    · exact hb1
    · exact hb2

lemma extendBack_bound (a b : List Char) : ∀ (bi bj k : Nat),
    bi + k ≤ a.length → bj + k ≤ b.length →
    (extendBack a b bi bj k).besti + (extendBack a b bi bj k).bestsize ≤ a.length ∧
    (extendBack a b bi bj k).bestj + (extendBack a b bi bj k).bestsize ≤ b.length := by
  intro bi
  induction bi with
  | zero =>
    intro bj k h1 h2
    exact ⟨h1, h2⟩
  | succ bi ih =>
    intro bj k h1 h2
    match bj with
    | 0 => exact ⟨h1, h2⟩
    | bj + 1 =>
      rw [extendBack]
      by_cases hc : chEq a b bi bj = true
      · rw [if_pos hc]
        exact ih bj (k + 1) (by omega) (by omega)
      · rw [if_neg hc]
        exact ⟨h1, h2⟩

lemma extendFwdGo_bound (a b : List Char) (bi bj : Nat) : ∀ (fuel k : Nat),
    bi + k ≤ a.length → bj + k ≤ b.length →
    bi + extendFwdGo a b bi bj fuel k ≤ a.length ∧
    bj + extendFwdGo a b bi bj fuel k ≤ b.length := by
  intro fuel
  induction fuel with
  | zero =>
    intro k h1 h2
    exact ⟨h1, h2⟩
  | succ fuel ih =>
    intro k h1 h2
    rw [extendFwdGo]
    by_cases hc : chEq a b (bi + k) (bj + k) = true
    · rw [if_pos hc]
      obtain ⟨hk1, hk2⟩ := chEq_bounds hc
      exact ih (k + 1) (by omega) (by omega)
    · rw [if_neg hc]
      exact ⟨h1, h2⟩

lemma find_longest_match_bounds (pop : Char → Bool) (a b : List Char) :
    (find_longest_match pop a b).besti + (find_longest_match pop a b).bestsize ≤ a.length ∧
    (find_longest_match pop a b).bestj + (find_longest_match pop a b).bestsize ≤ b.length := by
  unfold find_longest_match
  obtain ⟨h1, h2⟩ :=
    dpLoop_bound pop b a.length a 0 (fun _ => 0) ⟨0, 0, 0⟩ (by simp) (fun j => by simp)
      (by simp) (by simp)
  obtain ⟨h3, h4⟩ :=
    extendBack_bound a b (dpLoop pop b a 0 (fun _ => 0) ⟨0, 0, 0⟩).besti
      (dpLoop pop b a 0 (fun _ => 0) ⟨0, 0, 0⟩).bestj
      (dpLoop pop b a 0 (fun _ => 0) ⟨0, 0, 0⟩).bestsize h1 h2
  obtain ⟨h5, h6⟩ :=
    extendFwdGo_bound a b _ _
      (a.length -
        ((extendBack a b _ _ _).besti + (extendBack a b _ _ _).bestsize))
      (extendBack a b (dpLoop pop b a 0 (fun _ => 0) ⟨0, 0, 0⟩).besti
        (dpLoop pop b a 0 (fun _ => 0) ⟨0, 0, 0⟩).bestj
        (dpLoop pop b a 0 (fun _ => 0) ⟨0, 0, 0⟩).bestsize).bestsize h3 h4
  exact ⟨h5, h6⟩

lemma matchingSizeGo_le : ∀ (fuel : Nat) (pop : Char → Bool) (a b : List Char),
    matchingSizeGo pop fuel a b ≤ min a.length b.length := by
  intro fuel
  induction fuel with
  | zero =>
    intro pop a b
    simp [matchingSizeGo]
  | succ fuel ih =>
    intro pop a b
    rw [matchingSizeGo]
    obtain ⟨hb1, hb2⟩ := find_longest_match_bounds pop a b
    by_cases h0 : (find_longest_match pop a b).bestsize = 0
    · rw [if_pos h0]
      omega
    · rw [if_neg h0]
      have t1 := ih pop (a.take (find_longest_match pop a b).besti)
        (b.take (find_longest_match pop a b).bestj)
      have t2 := ih pop
        (a.drop ((find_longest_match pop a b).besti + (find_longest_match pop a b).bestsize))
        (b.drop ((find_longest_match pop a b).bestj + (find_longest_match pop a b).bestsize))
      simp [List.length_take, List.length_drop] at t1 t2
      omega

lemma matchingSize_le (a b : List Char) : matchingSize a b ≤ min a.length b.length :=
  matchingSizeGo_le _ _ a b

/-! ### On equal sequences the best block is diagonal -/

lemma diagRun_pos (pop : Char → Bool) (s : List Char) {j : Nat} {c : Char}
    (hc : s.get? j = some c) (hp : pop c = false) :
    diagRun pop s j = (if j = 0 then 0 else diagRun pop s (j - 1)) + 1 := by
  cases j with
  | zero => rw [diagRun, hc]; simp [hp]
  | succ j => rw [diagRun, hc]; simp [hp]

lemma diagRun_popular (pop : Char → Bool) (s : List Char) {j : Nat} {c : Char}
    (hc : s.get? j = some c) (hp : pop c = true) :
    diagRun pop s j = 0 := by
  cases j with
  | zero => rw [diagRun, hc]; simp [hp]
  | succ j => rw [diagRun, hc]; simp [hp]

lemma dpRow_diag (pop : Char → Bool) (s : List Char) (c : Char) (i : Nat) (j2len : Nat → Nat)
    (hc : s.get? i = some c)
    (hja : ∀ j, j2len j ≤ diagRun pop s j)
    (hjb : ∀ j, j2len j ≤ (if i = 0 then 0 else diagRun pop s (i - 1)))
    (hjc : i ≠ 0 → j2len (i - 1) = diagRun pop s (i - 1)) :
    ∀ (bs : List Char) (j : Nat) (nj : Nat → Nat) (best : Best),
      s.drop j = bs →
      best.besti = best.bestj →
      (∀ j', j' < i → diagRun pop s j' ≤ best.bestsize) →
      (i < j → diagRun pop s i ≤ best.bestsize) →
      (∀ j', nj j' ≤ diagRun pop s j') →
      (∀ j', nj j' ≤ diagRun pop s i) →
      (i < j → nj i = diagRun pop s i) →
      (dpRow pop c i j2len bs j nj best).2.besti = (dpRow pop c i j2len bs j nj best).2.bestj ∧
      (∀ j', j' < i → diagRun pop s j' ≤ (dpRow pop c i j2len bs j nj best).2.bestsize) ∧
      diagRun pop s i ≤ (dpRow pop c i j2len bs j nj best).2.bestsize ∧
      (∀ j', (dpRow pop c i j2len bs j nj best).1 j' ≤ diagRun pop s j') ∧
      (∀ j', (dpRow pop c i j2len bs j nj best).1 j' ≤ diagRun pop s i) ∧
      (dpRow pop c i j2len bs j nj best).1 i = diagRun pop s i := by
  intro bs
  induction bs with
  | nil =>
    intro j nj best hbs hdiag hb2 hb3 hn1 hn2 hn3
    have hij : i < j := by
      have hlen : s.length - j = 0 := by
        have := congrArg List.length hbs
        simpa [List.length_drop] using this
      obtain ⟨hi, -⟩ := List.get?_eq_some.mp hc
      omega
    exact ⟨hdiag, hb2, hb3 hij, hn1, hn2, hn3 hij⟩
  | cons y bs ih =>
    intro j nj best hbs hdiag hb2 hb3 hn1 hn2 hn3
    have hy : s.get? j = some y := by
      have h0 : (s.drop j).get? 0 = s.get? (j + 0) := List.get?_drop s j 0
      rw [hbs] at h0
      simpa using h0.symm
    have hbs' : s.drop (j + 1) = bs := by
      have h1 : List.drop 1 (List.drop j s) = List.drop (j + 1) s := List.drop_drop 1 j s
      rw [hbs] at h1
      simpa using h1.symm
    by_cases hcond : (y == c && !pop c) = true
    · have hsplit := hcond
      simp only [Bool.and_eq_true] at hsplit
      obtain ⟨hyc', hpc'⟩ := hsplit
      have hyc : y = c := eq_of_beq hyc'
      have hpc : pop c = false := by
        cases hpop : pop c
        · rfl
        · rw [hpop] at hpc'
          exact absurd hpc' (by simp)
      have hDi : diagRun pop s i = (if i = 0 then 0 else diagRun pop s (i - 1)) + 1 :=
        diagRun_pos pop s hc hpc
      have hDj : diagRun pop s j = (if j = 0 then 0 else diagRun pop s (j - 1)) + 1 := by
        apply diagRun_pos pop s hy
        rw [hyc]
        exact hpc
      have hkDj : (if j = 0 then 0 else j2len (j - 1)) + 1 ≤ diagRun pop s j := by
        rw [hDj]
        rcases Nat.eq_zero_or_pos j with h0 | h0
        · rw [if_pos h0, if_pos h0]
        · rw [if_neg (by omega), if_neg (by omega)]
          have := hja (j - 1)
          omega
      have hkDi : (if j = 0 then 0 else j2len (j - 1)) + 1 ≤ diagRun pop s i := by
        rw [hDi]
        rcases Nat.eq_zero_or_pos j with h0 | h0
        · rw [if_pos h0]
          omega
        · rw [if_neg (by omega)]
          have := hjb (j - 1)
          omega
      rw [dpRow, if_pos hcond]
      rcases Nat.lt_trichotomy j i with hji | hji | hji
      · -- j < i: the candidate is bounded by the already-recorded diagonal run at j
        have hnoup : ¬ (best.bestsize < (if j = 0 then 0 else j2len (j - 1)) + 1) := by
          have := hb2 j hji
          omega
        refine ih (j + 1) _ _ hbs' ?_ ?_ (fun h => absurd h (by omega)) ?_ ?_
          (fun h => absurd h (by omega))
        · rw [if_neg hnoup]
          exact hdiag
        · rw [if_neg hnoup]
          exact hb2
        · intro j'
          by_cases hj' : j' = j
          · subst hj'
            rw [if_pos rfl]
            exact hkDj
          · rw [if_neg hj']
            exact hn1 j'
        · intro j'
          by_cases hj' : j' = j
          · subst hj'
            rw [if_pos rfl]
            exact hkDi
          · rw [if_neg hj']
            exact hn2 j'
      · -- j = i: the diagonal cell, whose candidate is exactly the diagonal run
        subst hji
        have hkexact : (if j = 0 then 0 else j2len (j - 1)) + 1 = diagRun pop s j := by
          rw [hDi]
          rcases Nat.eq_zero_or_pos j with h0 | h0
          · rw [if_pos h0, if_pos h0]
          · rw [if_neg (by omega), if_neg (by omega), hjc (by omega)]
        refine ih (j + 1) _ _ hbs' ?_ ?_ ?_ ?_ ?_ ?_
        · by_cases hb : best.bestsize < (if j = 0 then 0 else j2len (j - 1)) + 1
          · rw [if_pos hb]
          · rw [if_neg hb]
            exact hdiag
        · intro j' hj'
          by_cases hb : best.bestsize < (if j = 0 then 0 else j2len (j - 1)) + 1
          · rw [if_pos hb]
            show diagRun pop s j' ≤ (if j = 0 then 0 else j2len (j - 1)) + 1
            have := hb2 j' hj'
            omega
          · rw [if_neg hb]
            exact hb2 j' hj'
        · intro _
          by_cases hb : best.bestsize < (if j = 0 then 0 else j2len (j - 1)) + 1
          · rw [if_pos hb]
            show diagRun pop s j ≤ (if j = 0 then 0 else j2len (j - 1)) + 1
            omega
          · rw [if_neg hb]
            omega
        · intro j'
          by_cases hj' : j' = j
          · subst hj'
            rw [if_pos rfl]
            exact le_of_eq hkexact
          · rw [if_neg hj']
            exact hn1 j'
        · intro j'
          by_cases hj' : j' = j
          · subst hj'
            rw [if_pos rfl]
            exact le_of_eq hkexact
          · rw [if_neg hj']
            exact hn2 j'
        · intro _
          rw [if_pos rfl]
          exact hkexact
      · -- i < j: the candidate is bounded by the already-recorded diagonal run at i
        have hnoup : ¬ (best.bestsize < (if j = 0 then 0 else j2len (j - 1)) + 1) := by
          have := hb3 hji
          omega
        refine ih (j + 1) _ _ hbs' ?_ ?_ ?_ ?_ ?_ ?_
        · rw [if_neg hnoup]
          exact hdiag
        · rw [if_neg hnoup]
          exact hb2
        · intro _
          rw [if_neg hnoup]
          exact hb3 hji
        · intro j'
          by_cases hj' : j' = j
          · subst hj'
            rw [if_pos rfl]
            exact hkDj
          · rw [if_neg hj']
            exact hn1 j'
        · intro j'
          by_cases hj' : j' = j
          · subst hj'
            rw [if_pos rfl]
            exact hkDi
          · rw [if_neg hj']
            exact hn2 j'
        · intro _
          rw [if_neg (by omega : ¬ (i = j))]
          exact hn3 hji
    · -- no match: on the diagonal this means the character is popular
      have hdiagcase : i = j → diagRun pop s i = 0 := by
        intro hije
        have hc' : s.get? j = some c := by
          rw [← hije]
          exact hc
        have hyc : y = c := by
          rw [hc'] at hy
          exact (Option.some.inj hy).symm
        have hpc : pop c = true := by
          cases hpop : pop c
          · exfalso
            apply hcond
            simp [hyc, hpop]
          · rfl
        exact diagRun_popular pop s hc hpc
      rw [dpRow, if_neg hcond]
      refine ih (j + 1) _ _ hbs' hdiag hb2 ?_ hn1 hn2 ?_
      · intro h
        rcases Nat.lt_or_ge i j with hij | hij
        · exact hb3 hij
        · have hije : i = j := by omega
          rw [hdiagcase hije]
          exact Nat.zero_le _
      · intro h
        rcases Nat.lt_or_ge i j with hij | hij
        · exact hn3 hij
        · have hije : i = j := by omega
          have h0 := hdiagcase hije
          have h1 := hn2 i
          omega

lemma dpLoop_diag (pop : Char → Bool) (s : List Char) :
    ∀ (rest : List Char) (i : Nat) (j2len : Nat → Nat) (best : Best),
      s.drop i = rest →
      (∀ j, j2len j ≤ diagRun pop s j) →
      (∀ j, j2len j ≤ (if i = 0 then 0 else diagRun pop s (i - 1))) →
      (i ≠ 0 → j2len (i - 1) = diagRun pop s (i - 1)) →
      best.besti = best.bestj →
      (∀ j', j' < i → diagRun pop s j' ≤ best.bestsize) →
      (dpLoop pop s rest i j2len best).besti = (dpLoop pop s rest i j2len best).bestj := by
  intro rest
  induction rest with
  | nil =>
    intro i j2len best _ _ _ _ hdiag _
    exact hdiag
  | cons c rest ih =>
    intro i j2len best hrest hja hjb hjc hdiag hb2
    have hc : s.get? i = some c := by
      have h0 : (s.drop i).get? 0 = s.get? (i + 0) := List.get?_drop s i 0
      rw [hrest] at h0
      simpa using h0.symm
    have hrest' : s.drop (i + 1) = rest := by
      have h1 : List.drop 1 (List.drop i s) = List.drop (i + 1) s := List.drop_drop 1 i s
      rw [hrest] at h1
      simpa using h1.symm
    rw [dpLoop]
    obtain ⟨d1, d2, d3, d4, d5, d6⟩ :=
      dpRow_diag pop s c i j2len hc hja hjb hjc s 0 (fun _ => 0) best rfl hdiag hb2
        (fun h => absurd h (by omega)) (fun j' => Nat.zero_le _) (fun j' => Nat.zero_le _)
        (fun h => absurd h (by omega))
    refine ih (i + 1) _ _ hrest' d4 ?_ ?_ d1 ?_
    · intro j
      rw [if_neg (by omega : ¬ (i + 1 = 0))]
      exact d5 j
    · intro _
      exact d6
    · intro j' hj'
      rcases Nat.lt_or_ge j' i with h | h
      · exact d2 j' h
      · have hj'i : j' = i := by omega
        subst hj'i
        exact d3

lemma extendBack_self (s : List Char) : ∀ (d k : Nat), d + k ≤ s.length →
    extendBack s s d d k = ⟨0, 0, d + k⟩ := by
  intro d
  induction d with
  | zero =>
    intro k h
    show (⟨0, 0, k⟩ : Best) = ⟨0, 0, 0 + k⟩
    rw [Nat.zero_add]
  | succ d ih =>
    intro k h
    rw [extendBack]
    have hch : chEq s s d d = true := chEq_self (by omega)
    rw [if_pos hch, ih (k + 1) (by omega)]
    congr 1
    omega

lemma extendFwdGo_self (s : List Char) : ∀ (fuel m : Nat), m ≤ s.length →
    fuel = s.length - m → extendFwdGo s s 0 0 fuel m = s.length := by
  intro fuel
  induction fuel with
  | zero =>
    intro m h1 h2
    have hm : m = s.length := by omega
    exact hm
  | succ fuel ih =>
    intro m h1 h2
    rw [extendFwdGo]
    have hch : chEq s s (0 + m) (0 + m) = true := by
      rw [Nat.zero_add]
      exact chEq_self (by omega)
    rw [if_pos hch]
    exact ih (m + 1) (by omega) (by omega)

lemma find_longest_match_self (pop : Char → Bool) (s : List Char) :
    find_longest_match pop s s = ⟨0, 0, s.length⟩ := by
  have hdiag : (dpLoop pop s s 0 (fun _ => 0) ⟨0, 0, 0⟩).besti
      = (dpLoop pop s s 0 (fun _ => 0) ⟨0, 0, 0⟩).bestj :=
    dpLoop_diag pop s s 0 (fun _ => 0) ⟨0, 0, 0⟩ rfl (fun j => Nat.zero_le _)
      (fun j => Nat.zero_le _) (fun h => absurd rfl h) rfl
      (fun j' h => absurd h (Nat.not_lt_zero j'))
  obtain ⟨hbd1, hbd2⟩ :=
    dpLoop_bound pop s s.length s 0 (fun _ => 0) ⟨0, 0, 0⟩ (by simp) (fun j => by simp)
      (by simp) (by simp)
  unfold find_longest_match
  rcases hd : dpLoop pop s s 0 (fun _ => 0) ⟨0, 0, 0⟩ with ⟨bi, bj, k⟩
  rw [hd] at hdiag hbd1 hbd2
  simp only at hdiag hbd1 hbd2
  subst hdiag
  simp only
  rw [extendBack_self s bi k hbd1]
  simp only
  rw [extendFwdGo_self s (s.length - (0 + (bi + k))) (bi + k) (by omega) (by omega)]

lemma matchingSizeGo_nil (pop : Char → Bool) : ∀ fuel : Nat,
    matchingSizeGo pop fuel [] [] = 0 := by
  intro fuel
  cases fuel with
  | zero => rfl
  | succ fuel => rfl

lemma matchingSize_self (s : List Char) : matchingSize s s = s.length := by
  unfold matchingSize
  cases s with
  | nil => rfl
  | cons c t =>
    have hfuel : (c :: t).length + (c :: t).length = (t.length + (c :: t).length) + 1 := by
      simp
      omega
    rw [hfuel, matchingSizeGo, find_longest_match_self]
    have hne : ¬ (Best.mk 0 0 (c :: t).length).bestsize = 0 := by simp
    rw [if_neg hne]
    simp [List.drop_length, matchingSizeGo_nil]

lemma similarity_nonneg (a b : List Char) : 0 ≤ similarity a b := by
  unfold similarity
  split
  · norm_num
  · positivity

lemma similarity_le_one (a b : List Char) : similarity a b ≤ 1 := by
  unfold similarity
  split
  · exact le_refl 1
  · rename_i hne
    have hpos : (0 : ℚ) < (a.length : ℚ) + (b.length : ℚ) := by
      have h0 : 0 < a.length + b.length := Nat.pos_of_ne_zero hne
      exact_mod_cast h0
    rw [div_le_one hpos]
    have hM : matchingSize a b ≤ min a.length b.length := matchingSize_le a b
    have h2 : 2 * matchingSize a b ≤ a.length + b.length := by omega
    exact_mod_cast h2

lemma similarity_self (s : List Char) : similarity s s = 1 := by
  unfold similarity
  rcases eq_or_ne (s.length + s.length) 0 with h | h
  · rw [if_pos h]
  · rw [if_neg h, matchingSize_self]
    have hs : (s.length : ℚ) + (s.length : ℚ) ≠ 0 := by exact_mod_cast h
    field_simp
    ring

lemma is_match_iff (e : BPMNEvaluator) (a b : String) :
    e.is_match a b = true ↔ e.threshold ≤ similarity (lower a) (lower b) := by
  unfold BPMNEvaluator.is_match
  exact decide_eq_true_iff

lemma is_match_self (e : BPMNEvaluator) (s : String) (h : e.threshold ≤ 1) :
    e.is_match s s = true := by
  rw [is_match_iff, similarity_self]
  exact h

/-! ### Structure of the matching loop -/

lemma matchLoop_tp_fp_length (e : BPMNEvaluator) :
    ∀ (ex remaining : List String),
      (e.matchLoop ex remaining).1.length + (e.matchLoop ex remaining).2.1.length = ex.length := by
  intro ex
  induction ex with
  | nil =>
    intro remaining
    simp [BPMNEvaluator.matchLoop]
  | cons x rest ih =>
    intro remaining
    rw [BPMNEvaluator.matchLoop]
    cases hf : remaining.find? (fun gt => e.is_match x gt) with
    | some g =>
      have := ih (remaining.erase g)
      simp only [List.length_cons]
      omega
    | none =>
      have := ih remaining
      simp only [List.length_cons]
      omega

lemma matchLoop_tp_fn_length (e : BPMNEvaluator) :
    ∀ (ex remaining : List String),
      (e.matchLoop ex remaining).1.length + (e.matchLoop ex remaining).2.2.length
        = remaining.length := by
  intro ex
  induction ex with
  | nil =>
    intro remaining
    simp [BPMNEvaluator.matchLoop]
  | cons x rest ih =>
    intro remaining
    rw [BPMNEvaluator.matchLoop]
    cases hf : remaining.find? (fun gt => e.is_match x gt) with
    | some g =>
      have hmem : g ∈ remaining := List.mem_of_find?_eq_some hf
      have hlen : (remaining.erase g).length = remaining.length - 1 :=
        List.length_erase_of_mem hmem
      have hpos : 0 < remaining.length := List.length_pos.mpr (List.ne_nil_of_mem hmem)
      have := ih (remaining.erase g)
      simp only [List.length_cons]
      omega
    | none =>
      have := ih remaining
      simp only [List.length_cons]
      omega

lemma matchLoop_perm (e : BPMNEvaluator) :
    ∀ (ex remaining : List String),
      ((e.matchLoop ex remaining).1 ++ (e.matchLoop ex remaining).2.1).Perm ex := by
  intro ex
  induction ex with
  | nil =>
    intro remaining
    simp [BPMNEvaluator.matchLoop]
  | cons x rest ih =>
    intro remaining
    rw [BPMNEvaluator.matchLoop]
    cases hf : remaining.find? (fun gt => e.is_match x gt) with
    | some g =>
      simpa using (ih (remaining.erase g)).cons x
    | none =>
      exact List.perm_middle.trans ((ih remaining).cons x)

lemma matchLoop_sublists (e : BPMNEvaluator) :
    ∀ (ex remaining : List String),
      (e.matchLoop ex remaining).1.Sublist ex ∧ (e.matchLoop ex remaining).2.1.Sublist ex := by
  intro ex
  induction ex with
  | nil =>
    intro remaining
    simp [BPMNEvaluator.matchLoop]
  | cons x rest ih =>
    intro remaining
    rw [BPMNEvaluator.matchLoop]
    cases hf : remaining.find? (fun gt => e.is_match x gt) with
    | some g =>
      exact ⟨(ih (remaining.erase g)).1.cons₂ x, (ih (remaining.erase g)).2.cons x⟩
    | none =>
      exact ⟨(ih remaining).1.cons x, (ih remaining).2.cons₂ x⟩

lemma matchLoop_fn_sublist (e : BPMNEvaluator) :
    ∀ (ex remaining : List String), (e.matchLoop ex remaining).2.2.Sublist remaining := by
  intro ex
  induction ex with
  | nil =>
    intro remaining
    simp [BPMNEvaluator.matchLoop]
  | cons x rest ih =>
    intro remaining
    rw [BPMNEvaluator.matchLoop]
    cases hf : remaining.find? (fun gt => e.is_match x gt) with
    | some g =>
      exact (ih (remaining.erase g)).trans (List.erase_sublist g remaining)
    | none =>
      exact ih remaining

/-- When `find?` returns `g`, Python's `remaining.remove(g)` (erase the first
occurrence of the value `g`) removes exactly the first element passing the
predicate: any earlier equal element would itself pass. -/
lemma erase_find_eq_eraseP (p : String → Bool) :
    ∀ (l : List String) (g : String), l.find? p = some g → l.erase g = l.eraseP p := by
  intro l
  induction l with
  | nil =>
    intro g h
    simp at h
  | cons a t ih =>
    intro g h
    by_cases hp : p a = true
    · rw [List.find?_cons_of_pos _ hp] at h
      have hg : a = g := Option.some.inj h
      subst hg
      rw [List.erase_cons_head, List.eraseP_cons_of_pos hp]
    · rw [List.find?_cons_of_neg _ hp] at h
      have hg : p g = true := List.find?_some h
      have hne : ¬ (a == g) = true := by
        intro hag
        exact hp ((eq_of_beq hag) ▸ hg)
      rw [List.erase_cons_tail hne, List.eraseP_cons_of_neg hp, ih g h]

lemma matchLoop_eq_specGreedy (e : BPMNEvaluator) :
    ∀ (ex remaining : List String),
      e.matchLoop ex remaining = specGreedy (fun a b => e.is_match a b) ex remaining := by
  intro ex
  induction ex with
  | nil =>
    intro remaining
    rfl
  | cons x rest ih =>
    intro remaining
    rw [BPMNEvaluator.matchLoop, specGreedy]
    cases hf : remaining.find? (fun gt => e.is_match x gt) with
    | some g =>
      simp only [hf]
      rw [erase_find_eq_eraseP _ _ _ hf, ih]
    | none =>
      simp only [hf]
      rw [ih]

lemma matchLoop_self (e : BPMNEvaluator) (h : e.threshold ≤ 1) :
    ∀ gt : List String, e.matchLoop gt gt = (gt, [], []) := by
  intro gt
  induction gt with
  | nil => rfl
  | cons x rest ih =>
    rw [BPMNEvaluator.matchLoop]
    have hx : e.is_match x x = true := is_match_self e x h
    rw [List.find?_cons_of_pos _ hx]
    simp [List.erase_cons_head, ih]

lemma matchLoop_empty_remaining (e : BPMNEvaluator) :
    ∀ ex : List String, e.matchLoop ex [] = ([], ex, []) := by
  intro ex
  induction ex with
  | nil => rfl
  | cons x rest ih =>
    rw [BPMNEvaluator.matchLoop]
    simp [List.find?_nil, ih]

/-! ### Rounding -/

lemma round2_zero : round2 0 = 0 := by
  rw [round2, roundHalfEven]
  norm_num

lemma round2_one : round2 1 = 1 := by
  rw [round2, roundHalfEven]
  norm_num

/-! ### Totality: the exception-explicit variant never fails -/

lemma matchLoopE_eq (e : BPMNEvaluator) :
    ∀ (ex remaining : List String),
      e.matchLoopE ex remaining = some (e.matchLoop ex remaining) := by
  intro ex
  induction ex with
  | nil =>
    intro remaining
    rfl
  | cons x rest ih =>
    intro remaining
    rw [BPMNEvaluator.matchLoopE, BPMNEvaluator.matchLoop]
    cases hf : remaining.find? (fun gt => e.is_match x gt) with
    | some g =>
      have hmem : g ∈ remaining := List.mem_of_find?_eq_some hf
      simp [hmem, ih]
    | none =>
      simp [ih]

lemma calculate_metricsE_eq (e : BPMNEvaluator) (gt ex : List String) :
    e.calculate_metricsE gt ex = some (e.calculate_metrics gt ex) := by
  rw [BPMNEvaluator.calculate_metricsE, BPMNEvaluator.calculate_metrics, matchLoopE_eq]
  rcases e.matchLoop ex gt with ⟨tps, fps, rem⟩
  simp only
  by_cases hpf : 0 < tps.length + fps.length <;>
    by_cases hpn : 0 < tps.length + rem.length
  · have hcast : ¬ ((tps.length : ℚ) + (fps.length : ℚ)) = 0 := by
      have h0 : (0 : ℚ) < (tps.length : ℚ) + (fps.length : ℚ) := by exact_mod_cast hpf
      exact ne_of_gt h0
    have hcast2 : ¬ ((tps.length : ℚ) + (rem.length : ℚ)) = 0 := by
      have h0 : (0 : ℚ) < (tps.length : ℚ) + (rem.length : ℚ) := by exact_mod_cast hpn
      exact ne_of_gt h0
    simp [hpf, hpn, hcast, hcast2]
  · have hcast : ¬ ((tps.length : ℚ) + (fps.length : ℚ)) = 0 := by
      have h0 : (0 : ℚ) < (tps.length : ℚ) + (fps.length : ℚ) := by exact_mod_cast hpf
      exact ne_of_gt h0
    simp [hpf, hpn, hcast]
  · have hcast2 : ¬ ((tps.length : ℚ) + (rem.length : ℚ)) = 0 := by
      have h0 : (0 : ℚ) < (tps.length : ℚ) + (rem.length : ℚ) := by exact_mod_cast hpn
      exact ne_of_gt h0
    simp [hpf, hpn, hcast2]
  · simp [hpf, hpn]

/-! ### The heap model: no caller-visible mutation -/

lemma Heap.store_write_self (h : Heap) (r : Nat) (v : List String) :
    (h.write r v).store r = v := by
  simp [Heap.write]

lemma Heap.store_write_ne (h : Heap) (r r' : Nat) (v : List String) (hne : r' ≠ r) :
    (h.write r v).store r' = h.store r' := by
  simp [Heap.write, hne]

lemma Heap.next_write (h : Heap) (r : Nat) (v : List String) :
    (h.write r v).next = h.next := rfl

lemma metricsLoop_spec (e : BPMNEvaluator) (tpR fpR remR : Nat)
    (h12 : tpR ≠ fpR) (h13 : tpR ≠ remR) (h23 : fpR ≠ remR) :
    ∀ (ex : List String) (h : Heap),
      (e.metricsLoop tpR fpR remR ex h).store tpR
          = h.store tpR ++ (e.matchLoop ex (h.store remR)).1 ∧
      (e.metricsLoop tpR fpR remR ex h).store fpR
          = h.store fpR ++ (e.matchLoop ex (h.store remR)).2.1 ∧
      (e.metricsLoop tpR fpR remR ex h).store remR
          = (e.matchLoop ex (h.store remR)).2.2 ∧
      (∀ r, r ≠ tpR → r ≠ fpR → r ≠ remR →
        (e.metricsLoop tpR fpR remR ex h).store r = h.store r) ∧
      (e.metricsLoop tpR fpR remR ex h).next = h.next := by
  intro ex
  induction ex with
  | nil =>
    intro h
    simp [BPMNEvaluator.metricsLoop, BPMNEvaluator.matchLoop]
  | cons x rest ih =>
    intro h
    cases hf : (h.store remR).find? (fun gt => e.is_match x gt) with
    | some g =>
      have e1 : (h.write tpR (h.store tpR ++ [x])).store remR = h.store remR :=
        Heap.store_write_ne _ _ _ _ (Ne.symm h13)
      have hstep : e.metricsLoop tpR fpR remR (x :: rest) h =
          e.metricsLoop tpR fpR remR rest
            ((h.write tpR (h.store tpR ++ [x])).write remR
              (((h.write tpR (h.store tpR ++ [x])).store remR).erase g)) := by
        rw [BPMNEvaluator.metricsLoop, hf]
      have hstepM : e.matchLoop (x :: rest) (h.store remR) =
          (x :: (e.matchLoop rest ((h.store remR).erase g)).1,
           (e.matchLoop rest ((h.store remR).erase g)).2.1,
           (e.matchLoop rest ((h.store remR).erase g)).2.2) := by
        rw [BPMNEvaluator.matchLoop, hf]
      rw [e1] at hstep
      obtain ⟨i1, i2, i3, i4, i5⟩ :=
        ih ((h.write tpR (h.store tpR ++ [x])).write remR ((h.store remR).erase g))
      have s_tp : ((h.write tpR (h.store tpR ++ [x])).write remR
          ((h.store remR).erase g)).store tpR = h.store tpR ++ [x] := by
        rw [Heap.store_write_ne _ _ _ _ h13, Heap.store_write_self]
      have s_fp : ((h.write tpR (h.store tpR ++ [x])).write remR
          ((h.store remR).erase g)).store fpR = h.store fpR := by
        rw [Heap.store_write_ne _ _ _ _ h23, Heap.store_write_ne _ _ _ _ (Ne.symm h12)]
      have s_rem : ((h.write tpR (h.store tpR ++ [x])).write remR
          ((h.store remR).erase g)).store remR = (h.store remR).erase g :=
        Heap.store_write_self _ _ _
      rw [hstep, hstepM, i1, i2, i3, s_tp, s_fp, s_rem]
      refine ⟨by simp, rfl, rfl, ?_, ?_⟩
      · intro r hr1 hr2 hr3
        rw [i4 r hr1 hr2 hr3, Heap.store_write_ne _ _ _ _ hr3,
          Heap.store_write_ne _ _ _ _ hr1]
      · rw [i5, Heap.next_write, Heap.next_write]
    | none =>
      have hstep : e.metricsLoop tpR fpR remR (x :: rest) h =
          e.metricsLoop tpR fpR remR rest (h.write fpR (h.store fpR ++ [x])) := by
        rw [BPMNEvaluator.metricsLoop, hf]
      have hstepM : e.matchLoop (x :: rest) (h.store remR) =
          ((e.matchLoop rest (h.store remR)).1,
           x :: (e.matchLoop rest (h.store remR)).2.1,
           (e.matchLoop rest (h.store remR)).2.2) := by
        rw [BPMNEvaluator.matchLoop, hf]
      obtain ⟨i1, i2, i3, i4, i5⟩ := ih (h.write fpR (h.store fpR ++ [x]))
      have s_rem : (h.write fpR (h.store fpR ++ [x])).store remR = h.store remR :=
        Heap.store_write_ne _ _ _ _ (Ne.symm h23)
      have s_tp : (h.write fpR (h.store fpR ++ [x])).store tpR = h.store tpR :=
        Heap.store_write_ne _ _ _ _ h12
      have s_fp : (h.write fpR (h.store fpR ++ [x])).store fpR = h.store fpR ++ [x] :=
        Heap.store_write_self _ _ _
      rw [hstep, hstepM, i1, i2, i3, s_rem, s_tp, s_fp]
      refine ⟨rfl, by simp, rfl, ?_, ?_⟩
      · intro r hr1 hr2 hr3
        rw [i4 r hr1 hr2 hr3, Heap.store_write_ne _ _ _ _ hr2]
      · rw [i5, Heap.next_write]

lemma Heap.store_alloc_self (h : Heap) (v : List String) :
    (h.alloc v).2.store h.next = v := by
  simp [Heap.alloc]

lemma Heap.store_alloc_ne (h : Heap) (v : List String) (r : Nat) (hne : r ≠ h.next) :
    (h.alloc v).2.store r = h.store r := by
  simp [Heap.alloc, hne]

lemma Heap.alloc_fst (h : Heap) (v : List String) : (h.alloc v).1 = h.next := rfl

lemma Heap.alloc_next (h : Heap) (v : List String) : (h.alloc v).2.next = h.next + 1 := rfl

lemma calculate_metrics_heap_spec (e : BPMNEvaluator) (h : Heap) (gtR exR : Nat)
    (hgt : gtR < h.next) (hex : exR < h.next) :
    (e.calculate_metrics_heap h gtR exR).1
        = e.calculate_metrics (h.store gtR) (h.store exR) ∧
    (∀ r, r < h.next → (e.calculate_metrics_heap h gtR exR).2.store r = h.store r) ∧
    h.next ≤ (e.calculate_metrics_heap h gtR exR).2.next := by
  have h1d : (h.alloc []).2.next = h.next + 1 := rfl
  have h2d : ((h.alloc []).2.alloc []).2.next = h.next + 2 := rfl
  set h1 := (h.alloc []).2 with hh1
  set h2 := (h1.alloc []).2 with hh2
  set h3 := (h2.alloc (h2.store gtR)).2 with hh3
  have h3d : h3.next = h.next + 3 := by rw [hh3, Heap.alloc_next, h2d]
  have f1 : h3.store h.next = [] := by
    rw [hh3, Heap.store_alloc_ne _ _ _ (by omega), hh2,
      Heap.store_alloc_ne _ _ _ (by omega), hh1, Heap.store_alloc_self]
  have f2 : h3.store (h.next + 1) = [] := by
    rw [hh3, Heap.store_alloc_ne _ _ _ (by omega), hh2]
    have : (h.alloc []).2.next = h.next + 1 := rfl
    rw [← this, Heap.store_alloc_self]
  have fgt2 : h2.store gtR = h.store gtR := by
    rw [hh2, Heap.store_alloc_ne _ _ _ (by omega), hh1,
      Heap.store_alloc_ne _ _ _ (by omega)]
  have f3 : h3.store (h.next + 2) = h.store gtR := by
    rw [hh3, ← h2d, Heap.store_alloc_self, fgt2]
  have f4 : ∀ r, r < h.next → h3.store r = h.store r := by
    intro r hr
    rw [hh3, Heap.store_alloc_ne _ _ _ (by omega), hh2,
      Heap.store_alloc_ne _ _ _ (by omega), hh1, Heap.store_alloc_ne _ _ _ (by omega)]
  have f5 : h3.store exR = h.store exR := f4 exR hex
  obtain ⟨L1, L2, L3, L4, L5⟩ :=
    metricsLoop_spec e h.next (h.next + 1) (h.next + 2) (by omega) (by omega) (by omega)
      (h3.store exR) h3
  rw [f3] at L1 L2 L3
  have hrun : e.calculate_metrics_heap h gtR exR =
      (let h4 := e.metricsLoop h.next (h.next + 1) (h.next + 2) (h3.store exR) h3
       let tps := h4.store h.next
       let fps := h4.store (h.next + 1)
       let rem := h4.store (h.next + 2)
       let tp := tps.length
       let fp := fps.length
       let fn := rem.length
       let precision : ℚ := if 0 < tp + fp then (tp : ℚ) / ((tp : ℚ) + (fp : ℚ)) else 0
       let q : ℚ := if 0 < tp + fn then (tp : ℚ) / ((tp : ℚ) + (fn : ℚ)) else 0
       (⟨round2 precision, round2 q, tps, fps, rem⟩, h4)) := rfl
  rw [hrun]
  simp only
  refine ⟨?_, ?_, ?_⟩
  · rw [L1, L2, L3, f1, f2, f5]
    simp only [List.nil_append]
    rw [BPMNEvaluator.calculate_metrics]
  · intro r hr
    rw [L4 r (by omega) (by omega) (by omega), f4 r hr]
  · rw [L5, h3d]
    omega

/-! ### Field equations for `calculate_metrics` -/

lemma calculate_metrics_fields (e : BPMNEvaluator) (gt ex : List String) :
    (e.calculate_metrics gt ex).tp = (e.matchLoop ex gt).1 ∧
    (e.calculate_metrics gt ex).fp = (e.matchLoop ex gt).2.1 ∧
    (e.calculate_metrics gt ex).fn = (e.matchLoop ex gt).2.2 ∧
    (e.calculate_metrics gt ex).precision
        = round2 (if 0 < (e.matchLoop ex gt).1.length + (e.matchLoop ex gt).2.1.length
            then ((e.matchLoop ex gt).1.length : ℚ) /
              (((e.matchLoop ex gt).1.length : ℚ) + ((e.matchLoop ex gt).2.1.length : ℚ))
            else 0) ∧
    (e.calculate_metrics gt ex).«recall»
        = round2 (if 0 < (e.matchLoop ex gt).1.length + (e.matchLoop ex gt).2.2.length
            then ((e.matchLoop ex gt).1.length : ℚ) /
              (((e.matchLoop ex gt).1.length : ℚ) + ((e.matchLoop ex gt).2.2.length : ℚ))
            else 0) := by
  rcases hm : e.matchLoop ex gt with ⟨tps, fps, rem⟩
  rw [BPMNEvaluator.calculate_metrics, hm]
  exact ⟨rfl, rfl, rfl, rfl, rfl⟩

/-! ### The claims -/

/-- C1: `calculate_metrics` implements exactly the greedy, order-dependent
matching algorithm of the spec: for every ground-truth and extracted sequence,
extracted labels are processed in the given order, the FIRST remaining
ground-truth label passing the similarity check wins and is removed from
"remaining" (first-match wins, no globally optimal assignment), a matched
extracted label is a true positive, an unmatched one a false positive, and the
labels left in "remaining" at the end are exactly the false negatives. -/
theorem C1_greedy_first_match (e : BPMNEvaluator) (gt ex : List String) :
    ((e.calculate_metrics gt ex).tp, (e.calculate_metrics gt ex).fp,
      (e.calculate_metrics gt ex).fn) = specGreedy (fun a b => e.is_match a b) ex gt := by
  obtain ⟨htp, hfp, hfn, -, -⟩ := calculate_metrics_fields e gt ex
  rw [htp, hfp, hfn, matchLoop_eq_specGreedy]

/-- C2: the similarity check is a pure function of the two strings and the
threshold: it holds iff the case-insensitive SequenceMatcher ratio of the two
strings is at least the threshold, that ratio always lies in [0, 1], and the
result depends on the evaluator only through its threshold. -/
theorem C2_similarity_check (e : BPMNEvaluator) (a b : String) :
    (e.is_match a b = true ↔ e.threshold ≤ similarity (lower a) (lower b)) ∧
    0 ≤ similarity (lower a) (lower b) ∧ similarity (lower a) (lower b) ≤ 1 ∧
    (∀ e' : BPMNEvaluator, e'.threshold = e.threshold →
      e'.is_match a b = e.is_match a b) := by
  refine ⟨is_match_iff e a b, similarity_nonneg _ _, similarity_le_one _ _, ?_⟩
  intro e' he
  rw [BPMNEvaluator.is_match, BPMNEvaluator.is_match, he]

/-- Witness for C2 at threshold 0.7 on the strings "shipped" and "Shipped". -/
theorem C2_witness :
    ((BPMNEvaluator.mk (7/10)).is_match "shipped" "Shipped" = true ↔
      (BPMNEvaluator.mk (7/10)).threshold ≤ similarity (lower "shipped") (lower "Shipped")) ∧
    (BPMNEvaluator.mk (7/10)).is_match "shipped" "Shipped"
        = (BPMNEvaluator.mk (7/10)).is_match "shipped" "Shipped" :=
  ⟨(C2_similarity_check (BPMNEvaluator.mk (7/10)) "shipped" "Shipped").1,
    (C2_similarity_check (BPMNEvaluator.mk (7/10)) "shipped" "Shipped").2.2.2
      (BPMNEvaluator.mk (7/10)) rfl⟩

/-- C3: the returned precision is tp/(tp+fp) rounded to two decimals, 0.0 when
tp+fp = 0; the returned recall is tp/(tp+fn) rounded to two decimals, 0.0 when
tp+fn = 0 (counts taken from the result itself). -/
theorem C3_precision_recall (e : BPMNEvaluator) (gt ex : List String) :
    ((e.calculate_metrics gt ex).precision
        = if (e.calculate_metrics gt ex).tp.length + (e.calculate_metrics gt ex).fp.length = 0
          then 0
          else round2 (((e.calculate_metrics gt ex).tp.length : ℚ) /
            (((e.calculate_metrics gt ex).tp.length : ℚ)
              + ((e.calculate_metrics gt ex).fp.length : ℚ)))) ∧
    ((e.calculate_metrics gt ex).«recall»
        = if (e.calculate_metrics gt ex).tp.length + (e.calculate_metrics gt ex).fn.length = 0
          then 0
          else round2 (((e.calculate_metrics gt ex).tp.length : ℚ) /
            (((e.calculate_metrics gt ex).tp.length : ℚ)
              + ((e.calculate_metrics gt ex).fn.length : ℚ)))) := by
  obtain ⟨htp, hfp, hfn, hprec, hrec⟩ := calculate_metrics_fields e gt ex
  rw [htp, hfp, hfn, hprec, hrec]
  constructor
  · by_cases h0 : (e.matchLoop ex gt).1.length + (e.matchLoop ex gt).2.1.length = 0
    · rw [if_neg (by omega), if_pos h0, round2_zero]
    · rw [if_pos (by omega), if_neg h0]
  · by_cases h0 : (e.matchLoop ex gt).1.length + (e.matchLoop ex gt).2.2.length = 0
    · rw [if_neg (by omega), if_pos h0, round2_zero]
    · rw [if_pos (by omega), if_neg h0]

/-- C4: each ground-truth label is consumed by at most one true-positive match
(the false negatives are a subsequence of the ground truth and tp + fn counts
the whole ground truth), every extracted label is classified as exactly one of
true positive or false positive (tp ++ fp is a permutation of extracted), and
the number of true positives never exceeds the ground-truth length. -/
theorem C4_matching_invariants (e : BPMNEvaluator) (gt ex : List String) :
    (e.calculate_metrics gt ex).fn.Sublist gt ∧
    (e.calculate_metrics gt ex).tp.length + (e.calculate_metrics gt ex).fn.length = gt.length ∧
    ((e.calculate_metrics gt ex).tp ++ (e.calculate_metrics gt ex).fp).Perm ex ∧
    (e.calculate_metrics gt ex).tp.length ≤ gt.length := by
  obtain ⟨htp, hfp, hfn, -, -⟩ := calculate_metrics_fields e gt ex
  rw [htp, hfp, hfn]
  refine ⟨matchLoop_fn_sublist e ex gt, matchLoop_tp_fn_length e ex gt,
    matchLoop_perm e ex gt, ?_⟩
  have := matchLoop_tp_fn_length e ex gt
  omega

/-- C5: `calculate_metrics` is total and never raises: the variant in which
Python's failure modes (`list.remove` on a missing value, division by zero)
are explicit always succeeds, returning the pure result, for every pair of
label sequences including empty ones. -/
theorem C5_total_never_raises (e : BPMNEvaluator) (gt ex : List String) :
    e.calculate_metricsE gt ex = some (e.calculate_metrics gt ex) :=
  calculate_metricsE_eq e gt ex

/-- C6 as frozen is false at empty sequences: with threshold 0.7 ≤ 1 and
extracted = ground truth = [], the returned precision is 0.0, not 1.0
(the source guards 0/0 to 0.0). -/
theorem C6_counterexample :
    (BPMNEvaluator.mk (7/10)).threshold ≤ 1 ∧
    ((BPMNEvaluator.mk (7/10)).calculate_metrics [] []).precision ≠ 1 := by
  constructor
  · norm_num
  · have hm : (BPMNEvaluator.mk (7/10)).matchLoop [] [] = ([], [], []) := rfl
    have h := (calculate_metrics_fields (BPMNEvaluator.mk (7/10)) [] []).2.2.2.1
    rw [hm] at h
    simp only [List.length_nil] at h
    rw [if_neg (by omega)] at h
    rw [h, round2_zero]
    norm_num

/-- C6 (amended): for extracted = ground truth (same order and content), a
NON-EMPTY ground truth, and threshold at most 1.0, the result is
tp = ground truth (so tp count = its length), fp = fn = [] and
precision = recall = 1.0.  (At empty inputs tp = fp = fn = [] still holds but
both guarded scores are 0.0, which is what forces the amendment.) -/
theorem C6_self_evaluation (e : BPMNEvaluator) (gt : List String)
    (ht : e.threshold ≤ 1) (hne : gt ≠ []) :
    e.calculate_metrics gt gt = ⟨1, 1, gt, [], []⟩ := by
  have hm : e.matchLoop gt gt = (gt, [], []) := matchLoop_self e ht gt
  rw [BPMNEvaluator.calculate_metrics, hm]
  have hlen : 0 < gt.length := List.length_pos.mpr hne
  have hcast : (gt.length : ℚ) ≠ 0 := by
    exact_mod_cast Nat.pos_iff_ne_zero.mp hlen
  simp only [List.length_nil, Nat.add_zero, Nat.cast_zero, add_zero]
  rw [if_pos hlen, div_self hcast, round2_one]

/-- Witness for the amended C6 at threshold 0.7 and ground truth ["Shipped"]. -/
theorem C6_witness :
    (BPMNEvaluator.mk (7/10)).calculate_metrics ["Shipped"] ["Shipped"]
      = ⟨1, 1, ["Shipped"], [], []⟩ :=
  C6_self_evaluation (BPMNEvaluator.mk (7/10)) ["Shipped"] (by norm_num) (by simp)

/-- C7: with a non-empty ground truth and an empty extracted sequence the
result is tp = fp = [], fn = the ground truth, precision = recall = 0.0; with
an empty ground truth and a non-empty extracted sequence it is tp = fn = [],
fp = the extracted sequence, precision = recall = 0.0. -/
theorem C7_empty_cases (e : BPMNEvaluator) (gt ex : List String)
    (hgt : gt ≠ []) (hex : ex ≠ []) :
    e.calculate_metrics gt [] = ⟨0, 0, [], [], gt⟩ ∧
    e.calculate_metrics [] ex = ⟨0, 0, [], ex, []⟩ := by
  constructor
  · have hm : e.matchLoop [] gt = ([], [], gt) := rfl
    rw [BPMNEvaluator.calculate_metrics, hm]
    have hlen : 0 < gt.length := List.length_pos.mpr hgt
    simp only [List.length_nil, Nat.cast_zero, Nat.zero_add, zero_add]
    rw [if_neg (by omega), if_pos hlen, zero_div, round2_zero]
  · have hm : e.matchLoop ex [] = ([], ex, []) := matchLoop_empty_remaining e ex
    rw [BPMNEvaluator.calculate_metrics, hm]
    have hlen : 0 < ex.length := List.length_pos.mpr hex
    simp only [List.length_nil, Nat.cast_zero, Nat.zero_add, zero_add, Nat.add_zero, add_zero]
    rw [if_pos hlen, if_neg (by omega), zero_div, round2_zero]

/-- Witness for C7 at threshold 0.7, ground truth ["Shipped"], extracted
["unrelated item"]. -/
theorem C7_witness :
    (BPMNEvaluator.mk (7/10)).calculate_metrics ["Shipped"] [] = ⟨0, 0, [], [], ["Shipped"]⟩ ∧
    (BPMNEvaluator.mk (7/10)).calculate_metrics [] ["unrelated item"]
      = ⟨0, 0, [], ["unrelated item"], []⟩ :=
  C7_empty_cases (BPMNEvaluator.mk (7/10)) ["Shipped"] ["unrelated item"] (by simp) (by simp)

/-- C8: identical strings always pass the similarity check at any threshold
not exceeding 1.0 (their case-insensitive ratio is exactly 1). -/
theorem C8_identical_match (e : BPMNEvaluator) (s : String) (h : e.threshold ≤ 1) :
    e.is_match s s = true :=
  is_match_self e s h

/-- Witness for C8 at threshold 0.7 on the string "Order is received". -/
theorem C8_witness :
    (BPMNEvaluator.mk (7/10)).is_match "Order is received" "Order is received" = true :=
  C8_identical_match (BPMNEvaluator.mk (7/10)) "Order is received" (by norm_num)

/-- C9: `calculate_metrics` neither mutates its caller's sequences (it works
on a copy of the ground truth, so the heap objects at the callers' addresses
are unchanged) nor depends on hidden state: a second call on the resulting
heap returns the identical result, which is the pure function of the two
stored sequences. -/
theorem C9_no_mutation_idempotent (e : BPMNEvaluator) (h : Heap) (gtR exR : Nat)
    (hgt : gtR < h.next) (hex : exR < h.next) :
    (e.calculate_metrics_heap h gtR exR).2.store gtR = h.store gtR ∧
    (e.calculate_metrics_heap h gtR exR).2.store exR = h.store exR ∧
    (e.calculate_metrics_heap ((e.calculate_metrics_heap h gtR exR).2) gtR exR).1
        = (e.calculate_metrics_heap h gtR exR).1 ∧
    (e.calculate_metrics_heap h gtR exR).1
        = e.calculate_metrics (h.store gtR) (h.store exR) := by
  obtain ⟨r1, fr1, nx1⟩ := calculate_metrics_heap_spec e h gtR exR hgt hex
  obtain ⟨r2, fr2, nx2⟩ := calculate_metrics_heap_spec e (e.calculate_metrics_heap h gtR exR).2
    gtR exR (by omega) (by omega)
  refine ⟨fr1 gtR hgt, fr1 exR hex, ?_, r1⟩
  rw [r2, fr1 gtR hgt, fr1 exR hex, r1]

/-- Witness for C9: a two-object heap holding ["Shipped"] at address 0 and
["shipped"] at address 1. -/
theorem C9_witness :
    ((BPMNEvaluator.mk (7/10)).calculate_metrics_heap
        ⟨fun n => if n = 0 then ["Shipped"] else ["shipped"], 2⟩ 0 1).2.store 0
      = (Heap.mk (fun n => if n = 0 then ["Shipped"] else ["shipped"]) 2).store 0 ∧
    ((BPMNEvaluator.mk (7/10)).calculate_metrics_heap
        ⟨fun n => if n = 0 then ["Shipped"] else ["shipped"], 2⟩ 0 1).2.store 1
      = (Heap.mk (fun n => if n = 0 then ["Shipped"] else ["shipped"]) 2).store 1 ∧
    ((BPMNEvaluator.mk (7/10)).calculate_metrics_heap
        (((BPMNEvaluator.mk (7/10)).calculate_metrics_heap
          ⟨fun n => if n = 0 then ["Shipped"] else ["shipped"], 2⟩ 0 1).2) 0 1).1
      = ((BPMNEvaluator.mk (7/10)).calculate_metrics_heap
          ⟨fun n => if n = 0 then ["Shipped"] else ["shipped"], 2⟩ 0 1).1 ∧
    ((BPMNEvaluator.mk (7/10)).calculate_metrics_heap
        ⟨fun n => if n = 0 then ["Shipped"] else ["shipped"], 2⟩ 0 1).1
      = (BPMNEvaluator.mk (7/10)).calculate_metrics
          ((Heap.mk (fun n => if n = 0 then ["Shipped"] else ["shipped"]) 2).store 0)
          ((Heap.mk (fun n => if n = 0 then ["Shipped"] else ["shipped"]) 2).store 1) :=
  C9_no_mutation_idempotent (BPMNEvaluator.mk (7/10))
    ⟨fun n => if n = 0 then ["Shipped"] else ["shipped"], 2⟩ 0 1 (by norm_num) (by norm_num)

/-- C10: counting identities len tp + len fp = len extracted and
len tp + len fn = len ground truth; the true-positive and false-positive
lists preserve the relative order of the extracted sequence (subsequences),
and the false negatives are a subsequence of the ground truth in its original
order. -/
theorem C10_counts_and_order (e : BPMNEvaluator) (gt ex : List String) :
    (e.calculate_metrics gt ex).tp.length + (e.calculate_metrics gt ex).fp.length = ex.length ∧
    (e.calculate_metrics gt ex).tp.length + (e.calculate_metrics gt ex).fn.length = gt.length ∧
    (e.calculate_metrics gt ex).tp.Sublist ex ∧
    (e.calculate_metrics gt ex).fp.Sublist ex ∧
    (e.calculate_metrics gt ex).fn.Sublist gt := by
  obtain ⟨htp, hfp, hfn, -, -⟩ := calculate_metrics_fields e gt ex
  rw [htp, hfp, hfn]
  exact ⟨matchLoop_tp_fp_length e ex gt, matchLoop_tp_fn_length e ex gt,
    (matchLoop_sublists e ex gt).1, (matchLoop_sublists e ex gt).2,
    matchLoop_fn_sublist e ex gt⟩

end BPMN
